import Mathlib

/-!
Verification of the NexaFiscal document-processing pipeline against its
natural-language specification.  The Python sources under `src/` are
shallowly embedded: numeric fields are modelled as exact rationals (`Rat`),
Python dictionaries as association lists, and the two external collaborators
(the LLM oracle and the file system / OCR backend) as injected parameters.
-/

namespace NexaFiscal

/-! ## src/utils/validators.py -/

/-- Embeds the formatting strip `re.sub(r'[^0-9]', '', s)`: keep only the
decimal digit characters of the string, in order. -/
def stripNonDigits (s : String) : List Char :=
  s.toList.filter Char.isDigit

/-- Numeric value of a digit character (`int(c)` on a digit). -/
def digitVal (c : Char) : Nat := c.toNat - 48

/-- Modulo-11 check digit rule shared by the Brazilian id checksums:
remainder 0 or 1 gives 0, otherwise `11 - remainder`. -/
def mod11Digit (s : Nat) : Nat := if s % 11 < 2 then 0 else 11 - s % 11

/-- Weighted sum of digits against a weight list. -/
def weightedSum (ds ws : List Nat) : Nat := (List.zipWith (fun a b => a * b) ds ws).sum

/-- Modelled from the spec: the business/personal-id checksum is delegated to
the external library `pycpfcnpj.cpfcnpj.validate`, which is not part of this
repository.  Spec section 8 describes the business id ("CNPJ") check as a
"modulo-11 dual-checksum over two fixed weight sequences applied to the
14-digit id" and section 4.4 the personal id ("CPF") as an 11-digit variant
with different weights; these are the standard sequences below.  The library
returns false for any other length. -/
def cpfcnpjValidate (clean : List Char) : Bool :=
  let ds := clean.map digitVal
  if ds.length == 11 then
    ds.get? 9 == some (mod11Digit (weightedSum (ds.take 9) [10,9,8,7,6,5,4,3,2])) &&
    ds.get? 10 == some (mod11Digit (weightedSum (ds.take 10) [11,10,9,8,7,6,5,4,3,2]))
  else if ds.length == 14 then
    ds.get? 12 == some (mod11Digit (weightedSum (ds.take 12) [5,4,3,2,9,8,7,6,5,4,3,2])) &&
    ds.get? 13 == some (mod11Digit (weightedSum (ds.take 13) [6,5,4,3,2,9,8,7,6,5,4,3,2]))
  else false

/-- Embeds `validate_cnpj`: empty input is rejected, formatting is stripped,
then the library checksum must pass and the bare digits must number 14. -/
def validate_cnpj (cnpj : String) : Bool :=
  if cnpj == "" then false
  else
    let cnpj_clean := stripNonDigits cnpj
    cpfcnpjValidate cnpj_clean && cnpj_clean.length == 14

/-- Embeds `validate_cpf`: empty input is rejected, formatting is stripped,
then the library checksum must pass and the bare digits must number 11. -/
def validate_cpf (cpf : String) : Bool :=
  if cpf == "" then false
  else
    let cpf_clean := stripNonDigits cpf
    cpfcnpjValidate cpf_clean && cpf_clean.length == 11

/-- Embeds the multiplier update in the `validate_nfe_key` loop:
`3 if mult == 2 else 2 if mult == 9 else mult + 1`. -/
def nextMult (m : Nat) : Nat :=
  if m == 2 then 3 else if m == 9 then 2 else m + 1

/-- Embeds the accumulation loop of `validate_nfe_key`, which walks the first
43 digits right-to-left (here: the reversed digit list front-to-back), adding
`digit * multiplier` and stepping the multiplier through the cycle 2..9. -/
def somaLoop : List Nat → Nat → Nat → Nat
  | [], soma, _ => soma
  | d :: rest, soma, m => somaLoop rest (soma + d * m) (nextMult m)

/-- Embeds the check-digit computation of `validate_nfe_key` over the first
43 digits (`base`, most-significant first). -/
def nfeDV (base : List Nat) : Nat :=
  let resto := somaLoop base.reverse 0 2 % 11
  if resto == 0 || resto == 1 then 0 else 11 - resto

/-- Embeds `validate_nfe_key`: empty input rejected, formatting stripped,
exactly 44 digits required, and the final digit must equal the modulo-11
check digit of the first 43. -/
def validate_nfe_key (key : String) : Bool :=
  if key == "" then false
  else
    let key_clean := stripNonDigits key
    if key_clean.length != 44 then false
    else
      let ds := key_clean.map digitVal
      let base := ds.take 43
      let dv := ds.getD 43 0
      dv == nfeDV base

/-! Specification-side restatement of the access-key checksum, written from
the claim wording: the weight of the digit at offset `k` from the right end
is `2 + k % 8` (the cycle 2..9 restarting at 2), and a remainder of 0 or 1
yields expected check digit 0, otherwise `11 - remainder`. -/

/-- Cyclic weighted sum from the claim wording: element at position `k` of
the (right-to-left) list gets weight `2 + k % 8`. -/
def cycSum : List Nat → Nat → Nat
  | [], _ => 0
  | d :: rest, k => d * (2 + k % 8) + cycSum rest (k + 1)

/-- Check digit as the spec words it, over `base` (most-significant first):
apply the cyclic weights right-to-left, reduce mod 11, special-case 0 and 1. -/
def specNfeCheckDigit (base : List Nat) : Nat :=
  let r := cycSum base.reverse 0 % 11
  if r = 0 ∨ r = 1 then 0 else 11 - r

/-- Acceptance condition as the spec words it: after stripping non-digit
formatting the key has exactly 44 digits and its last digit equals the
check digit computed over the first 43. -/
def specNfeKeyOk (key : String) : Prop :=
  ((stripNonDigits key).map digitVal).length = 44 ∧
  ((stripNonDigits key).map digitVal).getLast? =
    some (specNfeCheckDigit (((stripNonDigits key).map digitVal).take 43))

instance (key : String) : Decidable (specNfeKeyOk key) := by
  unfold specNfeKeyOk
  infer_instance

lemma nextMult_cycle (k : Nat) : nextMult (2 + k % 8) = 2 + (k + 1) % 8 := by
  have h8 : k % 8 < 8 := Nat.mod_lt _ (by norm_num)
  have hsucc : (k + 1) % 8 = (k % 8 + 1) % 8 := by omega
  rw [hsucc]
  interval_cases h : k % 8 <;> simp [nextMult]

lemma somaLoop_eq_cycSum (l : List Nat) (s k : Nat) :
    somaLoop l s (2 + k % 8) = s + cycSum l k := by
  induction l generalizing s k with
  | nil => simp [somaLoop, cycSum]
  | cons d rest ih =>
    simp only [somaLoop, cycSum, nextMult_cycle, ih]
    ring

lemma nfeDV_eq_spec (base : List Nat) : nfeDV base = specNfeCheckDigit base := by
  have h := somaLoop_eq_cycSum base.reverse 0 0
  simp only [Nat.zero_mod, Nat.add_zero, Nat.zero_add] at h
  simp only [nfeDV, specNfeCheckDigit, h]
  rcases Nat.lt_or_ge (cycSum base.reverse 0 % 11) 2 with hlt | hge
  · interval_cases hx : cycSum base.reverse 0 % 11 <;> simp
  · have hcond : ¬(cycSum base.reverse 0 % 11 = 0 ∨ cycSum base.reverse 0 % 11 = 1) := by
      omega
    have hb : (cycSum base.reverse 0 % 11 == 0 || cycSum base.reverse 0 % 11 == 1) = false := by
      simp only [Bool.or_eq_false_iff, beq_eq_false_iff_ne, ne_eq]
      omega
    rw [hb, if_neg hcond]
    simp

lemma isDigit_toNat_bounds {c : Char} (hc : c.isDigit = true) :
    48 ≤ c.toNat ∧ c.toNat ≤ 57 := by
  simp only [Char.isDigit, decide_eq_true_eq, Bool.and_eq_true, decide_eq_true_iff] at hc
  exact hc

lemma digit_char_inj {c c' : Char} (hc : c.isDigit = true) (hc' : c'.isDigit = true)
    (h : NexaFiscal.digitVal c = NexaFiscal.digitVal c') : c = c' := by
  have h1 := isDigit_toNat_bounds hc
  have h2 := isDigit_toNat_bounds hc'
  unfold NexaFiscal.digitVal at h
  have e1 : c.toNat = c.val.toNat := rfl
  have e2 : c'.toNat = c'.val.toNat := rfl
  exact Char.ext (UInt32.ext (by omega))

lemma mem_strip_isDigit {c : Char} {s : String} (h : c ∈ NexaFiscal.stripNonDigits s) :
    c.isDigit = true := by
  unfold NexaFiscal.stripNonDigits at h
  exact (List.mem_filter.mp h).2

lemma validate_nfe_key_iff (key : String) :
    NexaFiscal.validate_nfe_key key = true ↔ NexaFiscal.specNfeKeyOk key := by
  unfold NexaFiscal.validate_nfe_key NexaFiscal.specNfeKeyOk
  by_cases hk : key = ""
  · subst hk
    simp [NexaFiscal.stripNonDigits]
  · have hk2 : (key == "") = false := by simp [hk]
    rw [hk2]
    simp only [Bool.false_eq_true, if_false]
    set l := NexaFiscal.stripNonDigits key with hl
    by_cases h44 : l.length = 44
    · have hne : (l.length != 44) = false := by simp [h44]
      rw [hne]
      simp only [Bool.false_eq_true, if_false]
      have hmaplen : (l.map NexaFiscal.digitVal).length = 44 := by simp [h44]
      have hlast : (l.map NexaFiscal.digitVal).getLast? =
          (l.map NexaFiscal.digitVal)[43]? := by
        rw [List.getLast?_eq_getElem?, hmaplen]
      have h43 : 43 < (l.map NexaFiscal.digitVal).length := by omega
      obtain ⟨x, hx⟩ : ∃ x, (l.map NexaFiscal.digitVal)[43]? = some x :=
        ⟨_, List.getElem?_eq_getElem h43⟩
      rw [hlast, hx]
      rw [List.getD_eq_getElem?_getD, hx]
      simp only [Option.getD_some, beq_iff_eq, NexaFiscal.nfeDV_eq_spec]
      constructor
      · intro h; exact ⟨hmaplen, by rw [h]⟩
      · intro h; exact (Option.some_inj.mp h.2)
    · have hne : (l.length != 44) = true := by simp [h44]
      rw [hne]
      simp only [if_true]
      constructor
      · intro h; exact absurd h (by simp)
      · intro h
        exact absurd (by simpa using h.1) h44

/-- C5: access-key validation accepts a key (after stripping non-digit
formatting) exactly when it has 44 digits and its last digit equals the
modulo-11 check digit over the first 43 digits with the cyclic weight
sequence 2..9 applied right-to-left (remainder 0 or 1 giving 0, otherwise
11 minus the remainder); truncating a valid key to 43 digits, or corrupting
its check digit, makes validation fail. -/
theorem nfe_key_checksum :
    (∀ key : String, NexaFiscal.validate_nfe_key key = true ↔ NexaFiscal.specNfeKeyOk key) ∧
    (∀ key : String, (NexaFiscal.stripNonDigits key).length ≠ 44 →
      NexaFiscal.validate_nfe_key key = false) ∧
    (∀ key corrupt : String, ∀ base : List Char, ∀ d d' : Char,
      NexaFiscal.stripNonDigits key = base ++ [d] →
      NexaFiscal.stripNonDigits corrupt = base ++ [d'] →
      d ≠ d' → NexaFiscal.validate_nfe_key key = true →
      NexaFiscal.validate_nfe_key corrupt = false) := by
  refine ⟨validate_nfe_key_iff, ?_, ?_⟩
  · intro key h
    cases hv : NexaFiscal.validate_nfe_key key with
    | false => rfl
    | true =>
      have := (validate_nfe_key_iff key).mp hv
      exact absurd (by simpa using this.1) h
  · intro key corrupt base d d' hkey hcor hne hval
    cases hv : NexaFiscal.validate_nfe_key corrupt with
    | false => rfl
    | true =>
      have h1 := (validate_nfe_key_iff key).mp hval
      have h2 := (validate_nfe_key_iff corrupt).mp hv
      unfold NexaFiscal.specNfeKeyOk at h1 h2
      rw [hkey] at h1
      rw [hcor] at h2
      simp only [List.map_append, List.map_cons, List.map_nil, List.getLast?_concat] at h1 h2
      have hblen : base.length = 43 := by
        have := h1.1; simp at this; omega
      have htake1 : ((base.map NexaFiscal.digitVal) ++ [NexaFiscal.digitVal d]).take 43 =
          base.map NexaFiscal.digitVal := by
        have : (base.map NexaFiscal.digitVal).length = 43 := by simp [hblen]
        rw [← this, List.take_left]
      have htake2 : ((base.map NexaFiscal.digitVal) ++ [NexaFiscal.digitVal d']).take 43 =
          base.map NexaFiscal.digitVal := by
        have : (base.map NexaFiscal.digitVal).length = 43 := by simp [hblen]
        rw [← this, List.take_left]
      rw [htake1] at h1
      rw [htake2] at h2
      have hdd : NexaFiscal.digitVal d = NexaFiscal.digitVal d' := by
        have e1 := Option.some_inj.mp h1.2
        have e2 := Option.some_inj.mp h2.2
        rw [e1, e2]
      have hd : d.isDigit = true := mem_strip_isDigit (by rw [hkey]; simp)
      have hd' : d'.isDigit = true := mem_strip_isDigit (by rw [hcor]; simp)
      exact absurd (digit_char_inj hd hd' hdd) hne


/-- Witness for C5: the concrete key with computed check digit 6 passes;
its 43-digit truncation fails; corrupting the check digit to 5 fails. -/
theorem nfe_key_checksum_witness :
    validate_nfe_key "35200902345670000165500100000001231234567896" = true ∧
    validate_nfe_key "3520090234567000016550010000000123123456789" = false ∧
    validate_nfe_key "35200902345670000165500100000001231234567895" = false := by
  refine ⟨?_, ?_, ?_⟩
  · exact (nfe_key_checksum.1 _).mpr (by decide)
  · exact nfe_key_checksum.2.1 _ (by decide)
  · exact nfe_key_checksum.2.2
      "35200902345670000165500100000001231234567896"
      "35200902345670000165500100000001231234567895"
      ("3520090234567000016550010000000123123456789".toList) (Char.ofNat 54) (Char.ofNat 53)
      (by decide) (by decide) (by decide) (by decide)

lemma strip_idem (s : String) :
    stripNonDigits (String.mk (stripNonDigits s)) = stripNonDigits s := by
  unfold stripNonDigits
  have h : (String.mk (s.toList.filter Char.isDigit)).toList = s.toList.filter Char.isDigit := rfl
  rw [h]
  apply List.filter_eq_self.mpr
  intro a ha
  exact (List.mem_filter.mp ha).2

lemma strip_empty : stripNonDigits "" = [] := rfl

/-- Every validator of the shape "reject empty, then check the stripped
digits" is invariant under replacing the input by its stripped digit
sequence. -/
lemma strip_invariant_validator (f : List Char → Bool) (hf : f [] = false)
    (v : String → Bool)
    (hv : ∀ s : String, v s = if s == "" then false else f (stripNonDigits s)) :
    ∀ s : String, v s = v (String.mk (stripNonDigits s)) := by
  intro s
  rw [hv s, hv (String.mk (stripNonDigits s))]
  by_cases hnil : stripNonDigits s = []
  · rw [hnil]
    by_cases hs : s = ""
    · subst hs; rfl
    · have h1 : (s == "") = false := by simp [hs]
      have h2 : ((String.mk ([] : List Char)) == "") = true := by rfl
      rw [h1, h2]
      simp [hf]
  · have hs : s ≠ "" := by
      intro h; subst h; exact hnil strip_empty
    have h1 : (s == "") = false := by simp [hs]
    have h2 : ((String.mk (stripNonDigits s)) == "") = false := by
      apply beq_eq_false_iff_ne.mpr
      intro h
      apply hnil
      have : (String.mk (stripNonDigits s)).data = ("" : String).data := by rw [h]
      simpa using this
    rw [h1, h2]
    simp only [Bool.false_eq_true, if_false]
    rw [strip_idem]

/-- C10: the three id/key validators are total boolean functions (totality is
by construction of the embedding: the source guards its only fallible digit
conversions with try/except over already-stripped digit strings); each
returns false on the empty string, and each strips all non-digit characters
first, so a formatted id validates exactly as its bare digit sequence does. -/
theorem validators_total_and_strip_invariant :
    (validate_cnpj "" = false ∧ validate_cpf "" = false ∧ validate_nfe_key "" = false) ∧
    (∀ s : String,
      validate_cnpj s = validate_cnpj (String.mk (stripNonDigits s)) ∧
      validate_cpf s = validate_cpf (String.mk (stripNonDigits s)) ∧
      validate_nfe_key s = validate_nfe_key (String.mk (stripNonDigits s))) := by
  refine ⟨⟨rfl, rfl, rfl⟩, fun s => ⟨?_, ?_, ?_⟩⟩
  · exact strip_invariant_validator
      (fun l => cpfcnpjValidate l && l.length == 14) (by decide)
      validate_cnpj (fun t => rfl) s
  · exact strip_invariant_validator
      (fun l => cpfcnpjValidate l && l.length == 11) (by decide)
      validate_cpf (fun t => rfl) s
  · exact strip_invariant_validator
      (fun l => if l.length != 44 then false
        else (l.map digitVal).getD 43 0 == nfeDV ((l.map digitVal).take 43)) (by decide)
      validate_nfe_key (fun t => rfl) s


/-! ## src/agents/validation_agent.py -/

/-- Structured rendering of the messages `ValidationAgent.validate` appends to
`errors`/`warnings`; each constructor corresponds to one literal message of
the source, carrying the values the source interpolates into it (the item
messages carry the 1-based position `i+1`, and the divergence message the
computed and the recorded line totals). -/
inductive Msg
  | cnpjEmitenteInvalido
  | cnpjEmitenteNaoEncontrado
  | cnpjDestinatarioInvalido
  | cpfDestinatarioInvalido
  | destinatarioNaoEncontrado
  | chaveAcessoInvalida
  | chaveAcessoNaoEncontrada
  | valorTotalZeroOuNegativo
  | valorProdutosZeroOuNegativo
  | totaisNaoEncontrados
  | nenhumItemEncontrado
  | itemQuantidadeInvalida (pos : Nat)
  | itemValorUnitarioNegativo (pos : Nat)
  | itemDivergenciaCalculo (pos : Nat) (esperado encontrado : Rat)
deriving DecidableEq, Repr

/-- Entry of the `validations` field-check map: a boolean check or a count. -/
inductive VCheck
  | b (v : Bool)
  | n (v : Nat)
deriving DecidableEq, Repr

/-- One line item as the validator reads it: `item.get('quantidade', 0)`,
`item.get('valor_unitario', 0)`, `item.get('valor_total', 0)`, with the
Python floats modelled as exact rationals. -/
structure VItem where
  quantidade : Rat
  valor_unitario : Rat
  valor_total : Rat
deriving DecidableEq, Repr

/-- The `totais` sub-dictionary as the validator reads it
(`totais.get('valor_total', 0)`, `totais.get('valor_produtos', 0)`); `none`
models a missing or empty dictionary, for which `if totais:` is falsy. -/
structure VTotais where
  valor_total : Rat
  valor_produtos : Rat
deriving DecidableEq, Repr

/-- The fields of `extracted_data` the validator reads, each being the
defaulted nested lookup the source performs, e.g.
`emitente_cnpj = extracted_data.get('emitente', {}).get('cnpj', '')`. -/
structure VData where
  emitente_cnpj : String
  destinatario_cnpj : String
  destinatario_cpf : String
  chave_acesso : String
  totais : Option VTotais
  itens : List VItem
deriving DecidableEq, Repr

/-- The `validations` result dictionary built by `ValidationAgent.validate`. -/
structure Validations where
  is_valid : Bool
  errors : List Msg
  warnings : List Msg
  validations : List (String × VCheck)
deriving DecidableEq, Repr

/-- Initial accumulator: `{'is_valid': True, 'errors': [], 'warnings': [],
'validations': {}}`. -/
def Validations.init : Validations := ⟨true, [], [], []⟩

/-- Issuer business-id rule block of `validate` (sequential appends to the
shared result are rendered as functional record updates). -/
def stepEmitente (cnpj : String) (v : Validations) : Validations :=
  if cnpj != "" then
    let ok := validate_cnpj cnpj
    let v1 := {v with validations := v.validations ++ [("emitente_cnpj", VCheck.b ok)]}
    if !ok then
      {v1 with errors := v1.errors ++ [Msg.cnpjEmitenteInvalido], is_valid := false}
    else v1
  else {v with warnings := v.warnings ++ [Msg.cnpjEmitenteNaoEncontrado]}

/-- Recipient id rule block of `validate`: business id preferred, else
personal id, else warning. -/
def stepDestinatario (cnpj cpf : String) (v : Validations) : Validations :=
  if cnpj != "" then
    let ok := validate_cnpj cnpj
    let v1 := {v with validations := v.validations ++ [("destinatario_cnpj", VCheck.b ok)]}
    if !ok then
      {v1 with errors := v1.errors ++ [Msg.cnpjDestinatarioInvalido], is_valid := false}
    else v1
  else if cpf != "" then
    let ok := validate_cpf cpf
    let v1 := {v with validations := v.validations ++ [("destinatario_cpf", VCheck.b ok)]}
    if !ok then
      {v1 with errors := v1.errors ++ [Msg.cpfDestinatarioInvalido], is_valid := false}
    else v1
  else {v with warnings := v.warnings ++ [Msg.destinatarioNaoEncontrado]}

/-- Access-key rule block of `validate`. -/
def stepChave (chave : String) (v : Validations) : Validations :=
  if chave != "" then
    let ok := validate_nfe_key chave
    let v1 := {v with validations := v.validations ++ [("chave_acesso", VCheck.b ok)]}
    if !ok then
      {v1 with errors := v1.errors ++ [Msg.chaveAcessoInvalida], is_valid := false}
    else v1
  else {v with warnings := v.warnings ++ [Msg.chaveAcessoNaoEncontrada]}

/-- Totals rule block of `validate`: both checks produce warnings only. -/
def stepTotais (t : Option VTotais) (v : Validations) : Validations :=
  match t with
  | some t =>
    let v1 := if t.valor_total ≤ 0 then
        {v with warnings := v.warnings ++ [Msg.valorTotalZeroOuNegativo]}
      else v
    if t.valor_produtos ≤ 0 then
      {v1 with warnings := v1.warnings ++ [Msg.valorProdutosZeroOuNegativo]}
    else v1
  | none => {v with warnings := v.warnings ++ [Msg.totaisNaoEncontrados]}

/-- Per-item warnings appended by one iteration of the items loop of
`validate`, for the item at 1-based position `pos`; the tolerance constant
`0.005` of the source is the exact rational 5/1000. -/
def itemChecks (pos : Nat) (it : VItem) : List Msg :=
  (if it.quantidade ≤ 0 then [Msg.itemQuantidadeInvalida pos] else []) ++
  (if it.valor_unitario < 0 then [Msg.itemValorUnitarioNegativo pos] else []) ++
  (if 0 < it.quantidade ∧ 0 < it.valor_unitario then
    (if |it.quantidade * it.valor_unitario - it.valor_total| >
        it.valor_total * (5 / 1000) then
      [Msg.itemDivergenciaCalculo pos (it.quantidade * it.valor_unitario) it.valor_total]
    else [])
  else [])

/-- Line-items rule block of `validate`: empty list warning, or the item
count check followed by the loop over enumerated items. -/
def stepItens (itens : List VItem) (v : Validations) : Validations :=
  if itens.isEmpty then
    {v with warnings := v.warnings ++ [Msg.nenhumItemEncontrado]}
  else
    let v1 := {v with validations := v.validations ++ [("num_itens", VCheck.n itens.length)]}
    {v1 with warnings := v1.warnings ++ itens.enum.bind (fun p => itemChecks (p.1 + 1) p.2)}

/-- Embeds `ValidationAgent.validate`: the five rule blocks applied in
source order to the initial accumulator. -/
def ValidationAgent.validate (d : VData) : Validations :=
  stepItens d.itens (stepTotais d.totais (stepChave d.chave_acesso
    (stepDestinatario d.destinatario_cnpj d.destinatario_cpf
      (stepEmitente d.emitente_cnpj Validations.init))))

/-! Per-rule-group contributions, used to show that `validate` is the
independent concatenation of the five groups. -/

/-- Errors contributed by the issuer-id group alone. -/
def emitenteErrors (cnpj : String) : List Msg :=
  if cnpj != "" then
    (if !validate_cnpj cnpj then [Msg.cnpjEmitenteInvalido] else [])
  else []

/-- Warnings contributed by the issuer-id group alone. -/
def emitenteWarnings (cnpj : String) : List Msg :=
  if cnpj != "" then [] else [Msg.cnpjEmitenteNaoEncontrado]

/-- Field checks contributed by the issuer-id group alone. -/
def emitenteChecks (cnpj : String) : List (String × VCheck) :=
  if cnpj != "" then [("emitente_cnpj", VCheck.b (validate_cnpj cnpj))] else []

/-- Errors contributed by the recipient-id group alone. -/
def destinatarioErrors (cnpj cpf : String) : List Msg :=
  if cnpj != "" then
    (if !validate_cnpj cnpj then [Msg.cnpjDestinatarioInvalido] else [])
  else if cpf != "" then
    (if !validate_cpf cpf then [Msg.cpfDestinatarioInvalido] else [])
  else []

/-- Warnings contributed by the recipient-id group alone. -/
def destinatarioWarnings (cnpj cpf : String) : List Msg :=
  if cnpj != "" then [] else if cpf != "" then [] else [Msg.destinatarioNaoEncontrado]

/-- Field checks contributed by the recipient-id group alone. -/
def destinatarioChecks (cnpj cpf : String) : List (String × VCheck) :=
  if cnpj != "" then [("destinatario_cnpj", VCheck.b (validate_cnpj cnpj))]
  else if cpf != "" then [("destinatario_cpf", VCheck.b (validate_cpf cpf))]
  else []

/-- Errors contributed by the access-key group alone. -/
def chaveErrors (chave : String) : List Msg :=
  if chave != "" then
    (if !validate_nfe_key chave then [Msg.chaveAcessoInvalida] else [])
  else []

/-- Warnings contributed by the access-key group alone. -/
def chaveWarnings (chave : String) : List Msg :=
  if chave != "" then [] else [Msg.chaveAcessoNaoEncontrada]

/-- Field checks contributed by the access-key group alone. -/
def chaveChecks (chave : String) : List (String × VCheck) :=
  if chave != "" then [("chave_acesso", VCheck.b (validate_nfe_key chave))] else []

/-- Warnings contributed by the totals group alone. -/
def totaisWarnings (t : Option VTotais) : List Msg :=
  match t with
  | some t =>
    (if t.valor_total ≤ 0 then [Msg.valorTotalZeroOuNegativo] else []) ++
    (if t.valor_produtos ≤ 0 then [Msg.valorProdutosZeroOuNegativo] else [])
  | none => [Msg.totaisNaoEncontrados]

/-- Warnings contributed by the line-items group alone. -/
def itensWarnings (itens : List VItem) : List Msg :=
  if itens.isEmpty then [Msg.nenhumItemEncontrado]
  else itens.enum.bind (fun p => itemChecks (p.1 + 1) p.2)

/-- Field checks contributed by the line-items group alone. -/
def itensChecks (itens : List VItem) : List (String × VCheck) :=
  if itens.isEmpty then [] else [("num_itens", VCheck.n itens.length)]

lemma stepEmitente_spec (cnpj : String) (v : Validations) :
    stepEmitente cnpj v =
      ⟨v.is_valid && (emitenteErrors cnpj).isEmpty,
       v.errors ++ emitenteErrors cnpj,
       v.warnings ++ emitenteWarnings cnpj,
       v.validations ++ emitenteChecks cnpj⟩ := by
  unfold stepEmitente emitenteErrors emitenteWarnings emitenteChecks
  split
  · split <;> simp_all
  · simp

lemma stepDestinatario_spec (cnpj cpf : String) (v : Validations) :
    stepDestinatario cnpj cpf v =
      ⟨v.is_valid && (destinatarioErrors cnpj cpf).isEmpty,
       v.errors ++ destinatarioErrors cnpj cpf,
       v.warnings ++ destinatarioWarnings cnpj cpf,
       v.validations ++ destinatarioChecks cnpj cpf⟩ := by
  unfold stepDestinatario destinatarioErrors destinatarioWarnings destinatarioChecks
  split
  · split <;> simp_all
  · split
    · split <;> simp_all
    · simp

lemma stepChave_spec (chave : String) (v : Validations) :
    stepChave chave v =
      ⟨v.is_valid && (chaveErrors chave).isEmpty,
       v.errors ++ chaveErrors chave,
       v.warnings ++ chaveWarnings chave,
       v.validations ++ chaveChecks chave⟩ := by
  unfold stepChave chaveErrors chaveWarnings chaveChecks
  split
  · split <;> simp_all
  · simp

lemma stepTotais_spec (t : Option VTotais) (v : Validations) :
    stepTotais t v = {v with warnings := v.warnings ++ totaisWarnings t} := by
  unfold stepTotais totaisWarnings
  match t with
  | none => simp
  | some t =>
    by_cases h1 : t.valor_total ≤ 0 <;> by_cases h2 : t.valor_produtos ≤ 0 <;>
      simp [h1, h2]

lemma stepItens_spec (itens : List VItem) (v : Validations) :
    stepItens itens v =
      {v with warnings := v.warnings ++ itensWarnings itens,
              validations := v.validations ++ itensChecks itens} := by
  unfold stepItens itensWarnings itensChecks
  by_cases h : itens.isEmpty <;> simp [h]

/-- Full decomposition: `validate` is the concatenation, in source order, of
the five independent rule groups, and `is_valid` is the conjunction of the
three error groups being empty. -/
lemma validate_decomp (d : VData) :
    ValidationAgent.validate d =
      ⟨((emitenteErrors d.emitente_cnpj).isEmpty &&
        (destinatarioErrors d.destinatario_cnpj d.destinatario_cpf).isEmpty) &&
        (chaveErrors d.chave_acesso).isEmpty,
       emitenteErrors d.emitente_cnpj ++
         destinatarioErrors d.destinatario_cnpj d.destinatario_cpf ++
         chaveErrors d.chave_acesso,
       emitenteWarnings d.emitente_cnpj ++
         destinatarioWarnings d.destinatario_cnpj d.destinatario_cpf ++
         chaveWarnings d.chave_acesso ++ totaisWarnings d.totais ++
         itensWarnings d.itens,
       emitenteChecks d.emitente_cnpj ++
         destinatarioChecks d.destinatario_cnpj d.destinatario_cpf ++
         chaveChecks d.chave_acesso ++ itensChecks d.itens⟩ := by
  unfold ValidationAgent.validate
  rw [stepEmitente_spec, stepDestinatario_spec, stepChave_spec, stepTotais_spec,
    stepItens_spec]
  simp [Validations.init]

/-- C4: the ValidationResult satisfies `is_valid = false` iff `errors` is
non-empty; warnings influence only the `warnings` list, never `is_valid`
(which by this theorem is a function of `errors` alone). -/
theorem validation_is_valid_iff_no_errors :
    ∀ d : VData, ((ValidationAgent.validate d).is_valid = true ↔
      (ValidationAgent.validate d).errors = []) := by
  intro d
  rw [validate_decomp]
  simp only [Bool.and_eq_true, List.isEmpty_iff, List.append_eq_nil]

lemma emitWarn_not_in_itemChecks (pos : Nat) (it : VItem) :
    Msg.cnpjEmitenteNaoEncontrado ∉ itemChecks pos it := by
  unfold itemChecks
  split_ifs <;> simp_all

lemma emitWarn_not_in_itensWarnings (itens : List VItem) :
    Msg.cnpjEmitenteNaoEncontrado ∉ itensWarnings itens := by
  unfold itensWarnings
  split
  · simp
  · intro h
    rw [List.mem_bind] at h
    obtain ⟨p, _, hmem⟩ := h
    exact emitWarn_not_in_itemChecks (p.1 + 1) p.2 hmem

lemma emitWarn_not_in_totaisWarnings (t : Option VTotais) :
    Msg.cnpjEmitenteNaoEncontrado ∉ totaisWarnings t := by
  cases t with
  | none => simp [totaisWarnings]
  | some t =>
    simp only [totaisWarnings]
    split_ifs <;> simp_all

/-- C3: all five rule groups are evaluated independently — the errors and
warnings of `validate` are exactly the concatenation of each group's own
contribution, each computed from that group's fields alone (so no rule
outcome can suppress another's evaluation); in particular a record with a
valid issuer business id, an invalid non-empty access key and no recipient
id yields exactly the single access-key error and no issuer-id warning. -/
theorem validator_rule_independence :
    (∀ d : VData,
      (ValidationAgent.validate d).errors =
        emitenteErrors d.emitente_cnpj ++
        destinatarioErrors d.destinatario_cnpj d.destinatario_cpf ++
        chaveErrors d.chave_acesso ∧
      (ValidationAgent.validate d).warnings =
        emitenteWarnings d.emitente_cnpj ++
        destinatarioWarnings d.destinatario_cnpj d.destinatario_cpf ++
        chaveWarnings d.chave_acesso ++ totaisWarnings d.totais ++
        itensWarnings d.itens) ∧
    (∀ d : VData, d.emitente_cnpj ≠ "" → validate_cnpj d.emitente_cnpj = true →
      d.chave_acesso ≠ "" → validate_nfe_key d.chave_acesso = false →
      d.destinatario_cnpj = "" → d.destinatario_cpf = "" →
      (ValidationAgent.validate d).errors = [Msg.chaveAcessoInvalida] ∧
      Msg.cnpjEmitenteNaoEncontrado ∉ (ValidationAgent.validate d).warnings) := by
  constructor
  · intro d
    rw [validate_decomp]
    exact ⟨rfl, rfl⟩
  · intro d h1 h2 h3 h4 h5 h6
    rw [validate_decomp]
    constructor
    · simp [emitenteErrors, destinatarioErrors, chaveErrors, h1, h2, h3, h4, h5, h6]
    · intro hmem
      simp only [List.mem_append] at hmem
      rcases hmem with ((((h | h) | h) | h) | h)
      · simp [emitenteWarnings, h1] at h
      · simp [destinatarioWarnings, h5, h6] at h
      · simp [chaveWarnings, h3] at h
      · exact emitWarn_not_in_totaisWarnings d.totais h
      · exact emitWarn_not_in_itensWarnings d.itens h

/-- Witness for C3: a record with the valid formatted business id
11.222.333/0001-81 and the invalid access key "123" yields exactly the
access-key error and no issuer warning. -/
theorem validator_rule_independence_witness :
    (ValidationAgent.validate ⟨"11.222.333/0001-81", "", "", "123", none, []⟩).errors =
      [Msg.chaveAcessoInvalida] ∧
    Msg.cnpjEmitenteNaoEncontrado ∉
      (ValidationAgent.validate ⟨"11.222.333/0001-81", "", "", "123", none, []⟩).warnings :=
  validator_rule_independence.2 _ (by decide) (by decide) (by decide) (by decide) rfl rfl

lemma itemDiv_mem_itemChecks (pos p : Nat) (c f : Rat) (it : VItem) :
    (Msg.itemDivergenciaCalculo p c f ∈ itemChecks pos it ↔
      p = pos ∧ c = it.quantidade * it.valor_unitario ∧ f = it.valor_total ∧
      0 < it.quantidade ∧ 0 < it.valor_unitario ∧
      |it.quantidade * it.valor_unitario - it.valor_total| >
        it.valor_total * (5 / 1000)) := by
  unfold itemChecks
  split_ifs <;> simp_all

lemma itemDiv_mem_itensWarnings (itens : List VItem) (j : Nat) (it : VItem)
    (hj : itens.get? j = some it) :
    (Msg.itemDivergenciaCalculo (j + 1) (it.quantidade * it.valor_unitario)
        it.valor_total ∈ itensWarnings itens ↔
      0 < it.quantidade ∧ 0 < it.valor_unitario ∧
      |it.quantidade * it.valor_unitario - it.valor_total| >
        it.valor_total * (5 / 1000)) := by
  have hne : itens.isEmpty = false := by
    cases itens
    · simp at hj
    · rfl
  unfold itensWarnings
  rw [hne]
  simp only [Bool.false_eq_true, if_false]
  constructor
  · intro h
    rw [List.mem_bind] at h
    obtain ⟨q, hq, hmem⟩ := h
    rw [itemDiv_mem_itemChecks] at hmem
    obtain ⟨hpos, hc, hf, hq1, hq2, hineq⟩ := hmem
    have hq1e : q.1 = j := by omega
    have hqit : q.2 = it := by
      have hg := List.mem_enum_iff_getElem?.mp hq
      rw [hq1e] at hg
      rw [List.get?_eq_getElem?, hg] at hj
      exact Option.some_inj.mp hj
    rw [hqit] at hq1 hq2 hineq
    exact ⟨hq1, hq2, hineq⟩
  · intro hcon
    rw [List.mem_bind]
    refine ⟨(j, it), ?_, ?_⟩
    · apply List.mem_enum_iff_getElem?.mpr
      rw [← List.get?_eq_getElem?]
      exact hj
    · rw [itemDiv_mem_itemChecks]
      exact ⟨rfl, rfl, rfl, hcon.1, hcon.2.1, hcon.2.2⟩

lemma itemDiv_not_in_totaisWarnings (p : Nat) (c f : Rat) (t : Option VTotais) :
    Msg.itemDivergenciaCalculo p c f ∉ totaisWarnings t := by
  cases t with
  | none => simp [totaisWarnings]
  | some t =>
    simp only [totaisWarnings]
    split_ifs <;> simp_all

/-- C6: for a line item with positive quantity and positive unit price, the
divergence warning (naming the 1-based position, the recomputed product and
the recorded total) is emitted exactly when the absolute difference between
quantity times unit price and the recorded line total exceeds 0.5% of the
recorded line total. -/
theorem line_item_tolerance (d : VData) (j : Nat) (it : VItem)
    (hj : d.itens.get? j = some it)
    (hq : 0 < it.quantidade) (hu : 0 < it.valor_unitario) :
    (Msg.itemDivergenciaCalculo (j + 1) (it.quantidade * it.valor_unitario)
        it.valor_total ∈ (ValidationAgent.validate d).warnings ↔
      |it.quantidade * it.valor_unitario - it.valor_total| >
        it.valor_total * (5 / 1000)) := by
  rw [validate_decomp]
  show Msg.itemDivergenciaCalculo _ _ _ ∈ _ ++ _ ++ _ ++ _ ++ itensWarnings d.itens ↔ _
  simp only [List.mem_append]
  rw [itemDiv_mem_itensWarnings d.itens j it hj]
  constructor
  · intro h
    rcases h with ((((h | h) | h) | h) | h)
    · unfold emitenteWarnings at h
      split_ifs at h <;> simp_all
    · unfold destinatarioWarnings at h
      split_ifs at h <;> simp_all
    · unfold chaveWarnings at h
      split_ifs at h <;> simp_all
    · exact absurd h (itemDiv_not_in_totaisWarnings _ _ _ d.totais)
    · exact h.2.2
  · intro h
    exact Or.inr ⟨hq, hu, h⟩

/-- Witness for C6: quantity 10 at unit price 2.00 with recorded total 20.10
(difference exactly 0.5%) passes, while recorded total 20.11 triggers the
divergence warning. -/
theorem line_item_tolerance_witness :
    Msg.itemDivergenciaCalculo (0 + 1) ((10 : Rat) * 2) (201 / 10) ∉
      (ValidationAgent.validate ⟨"", "", "", "", none, [⟨10, 2, 201 / 10⟩]⟩).warnings ∧
    Msg.itemDivergenciaCalculo (0 + 1) ((10 : Rat) * 2) (2011 / 100) ∈
      (ValidationAgent.validate ⟨"", "", "", "", none, [⟨10, 2, 2011 / 100⟩]⟩).warnings := by
  constructor
  · intro h
    refine absurd ((line_item_tolerance ⟨"", "", "", "", none, [⟨10, 2, 201 / 10⟩]⟩ 0
      ⟨10, 2, 201 / 10⟩ rfl (by norm_num) (by norm_num)).mp h) ?_
    show ¬(|(10 : Rat) * 2 - 201 / 10| > (201 / 10) * (5 / 1000))
    rw [show (10 : Rat) * 2 - 201 / 10 = -(1 / 10) by norm_num, abs_neg,
      abs_of_nonneg (by norm_num : (0 : Rat) ≤ 1 / 10)]
    norm_num
  · refine (line_item_tolerance ⟨"", "", "", "", none, [⟨10, 2, 2011 / 100⟩]⟩ 0
      ⟨10, 2, 2011 / 100⟩ rfl (by norm_num) (by norm_num)).mpr ?_
    show |(10 : Rat) * 2 - 2011 / 100| > (2011 / 100) * (5 / 1000)
    rw [show (10 : Rat) * 2 - 2011 / 100 = -(11 / 100) by norm_num, abs_neg,
      abs_of_nonneg (by norm_num : (0 : Rat) ≤ 11 / 100)]
    norm_num

/-! ## src/utils/tax_config_loader.py — data model -/

/-- One tax definition dictionary of `tax_config.json`.  `enabled` is an
`Option` because the source reads it as `tax.get('enabled', True)`: a missing
key counts as enabled. -/
structure TaxDef where
  id : String
  name : String
  full_name : String
  description : String
  xml_fields : List String
  color : String
  applies_to : List String
  enabled : Option Bool
deriving DecidableEq, Repr

/-- The defaulted enabled flag `tax.get('enabled', True)`. -/
def TaxDef.isEnabled (t : TaxDef) : Bool := t.enabled.getD true

/-- One entry of `metadata.change_history`. -/
structure ChangeEntry where
  date : String
  change : String
  author : String
deriving DecidableEq, Repr

/-- The persisted configuration document `{taxes, metadata}`; the metadata
sub-dictionary is flattened to its two fields (the source lazily creates it
before appending, which is observationally an empty history). -/
structure ConfigFile where
  taxes : List TaxDef
  change_history : List ChangeEntry
  last_updated : String
deriving DecidableEq, Repr

/-- Embeds `TaxConfig.get_all_taxes`. -/
def ConfigFile.get_all_taxes (cfg : ConfigFile) (enabled_only : Bool) : List TaxDef :=
  if enabled_only then cfg.taxes.filter TaxDef.isEnabled else cfg.taxes

/-- Embeds `TaxConfig.get_tax_by_id`: first tax whose id matches, over all
taxes (enabled or not). -/
def ConfigFile.get_tax_by_id (cfg : ConfigFile) (tax_id : String) : Option TaxDef :=
  (cfg.get_all_taxes false).find? (fun t => t.id == tax_id)

/-- Embeds `TaxConfig.get_tax_ids`. -/
def ConfigFile.get_tax_ids (cfg : ConfigFile) (enabled_only : Bool) : List String :=
  (cfg.get_all_taxes enabled_only).map TaxDef.id

/-! ## XML values: the nested structure produced by `xmltodict.parse`
(string leaves, dictionaries, lists).  Pythonic operations that can raise
return `Except String`, carrying the exception text. -/

inductive XVal
  | s (v : String)
  | obj (fields : List (String × XVal))
  | arr (elems : List XVal)

/-- First-match association-list lookup (Python dict keys are unique, so
this is dict lookup). -/
def alookup {A : Type} : List (String × A) → String → Option A
  | [], _ => none
  | p :: rest, key => if p.1 == key then some p.2 else alookup rest key

/-- Whitespace as recognized around Python float literals and by `strip`. -/
def isSpaceChar (c : Char) : Bool := c == ' ' || c == '\t' || c == '\n' || c == '\r'

/-- Bool test for `pat in s` on Python strings: substring containment. -/
def substrB (pat : List Char) : List Char → Bool
  | [] => pat.isEmpty
  | c :: rest => pat.isPrefixOf (c :: rest) || substrB pat rest

/-- Python `needle in hay` for strings. -/
def pyIn (needle hay : String) : Bool := substrB needle.toList hay.toList

/-- Python `str.lower()` (character-wise, which agrees on the ASCII data
involved here). -/
def strLower (s : String) : String := String.mk (s.toList.map Char.toLower)

/-- Python `str.strip()`: drop surrounding whitespace. -/
def pyStrip (s : String) : String :=
  String.mk (((s.toList.dropWhile isSpaceChar).reverse.dropWhile isSpaceChar).reverse)

/-- Python truthiness of an XML value: empty string/dict/list are falsy. -/
def pyTruthy : XVal → Bool
  | .s t => t != ""
  | .obj fs => !fs.isEmpty
  | .arr xs => !xs.isEmpty

/-- Python `k in v`: key membership on a dict, substring test on a string,
and element equality on a list (a string element can equal the needle; a
dict or list element never equals a string). -/
def XVal.containsB (v : XVal) (k : String) : Bool :=
  match v with
  | .s t => pyIn k t
  | .obj fs => fs.any (fun p => p.1 == k)
  | .arr xs => xs.any (fun x => match x with | .s t => t == k | _ => false)

/-- Python `v[k]`: dict indexing; raises KeyError when absent and TypeError
on non-dicts. -/
def XVal.index (v : XVal) (k : String) : Except String XVal :=
  match v with
  | .obj fs =>
    match alookup fs k with
    | some w => Except.ok w
    | none => Except.error ("KeyError: " ++ k)
  | .s _ => Except.error "TypeError: string indices must be integers"
  | .arr _ => Except.error "TypeError: list indices must be integers, not str"

/-- Python `v.get(k, dflt)`: defaulted dict lookup; raises AttributeError on
non-dicts. -/
def XVal.pyGet (v : XVal) (k : String) (dflt : XVal) : Except String XVal :=
  match v with
  | .obj fs => Except.ok ((alookup fs k).getD dflt)
  | _ => Except.error "AttributeError: no attribute get"

/-- Coerces a leaf to the string the source stores; the embedding restricts
the string-typed record fields to string leaves, which is the shape
`xmltodict` produces for text nodes and attributes. -/
def XVal.asStr (v : XVal) : Except String String :=
  match v with
  | .s t => Except.ok t
  | _ => Except.error "TypeError: expected str"

/-- Python `v.get(k, '')` coerced to a string field. -/
def XVal.strGet (v : XVal) (k : String) : Except String String := do
  let w ← v.pyGet k (.s "")
  w.asStr

/-- Digits of a decimal literal folded to a natural number. -/
def digitsToNat (ds : List Char) : Nat := ds.foldl (fun a c => a * 10 + digitVal c) 0

/-- Exponent tail of a float literal: optional sign then digits. -/
def parseExp (cs : List Char) : Bool × Int :=
  let sd : Int × List Char :=
    match cs with
    | '-' :: rest => (-1, rest)
    | '+' :: rest => (1, rest)
    | _ => (1, cs)
  if sd.2.isEmpty || !(sd.2.all Char.isDigit) then (false, 0)
  else (true, sd.1 * (digitsToNat sd.2 : Int))

/-- Embeds Python `float(str)` on the decimal/scientific literals occurring
in fiscal XML: optional surrounding whitespace, optional sign, digits with
an optional fractional part, optional exponent; anything else fails (as
`float` raises ValueError).  The value is exact (`Rat`). -/
def parsePyFloat (str : String) : Option Rat :=
  let cs := ((str.toList.dropWhile isSpaceChar).reverse.dropWhile isSpaceChar).reverse
  let sgn : Int × List Char :=
    match cs with
    | '-' :: rest => (-1, rest)
    | '+' :: rest => (1, rest)
    | _ => (1, cs)
  let ip := sgn.2.takeWhile Char.isDigit
  let rest1 := sgn.2.dropWhile Char.isDigit
  let fpRest : List Char × List Char :=
    match rest1 with
    | '.' :: rest => (rest.takeWhile Char.isDigit, rest.dropWhile Char.isDigit)
    | _ => ([], rest1)
  let fp := fpRest.1
  if ip.isEmpty && fp.isEmpty then none
  else
    let mant : Rat :=
      (digitsToNat ip : Rat) + (digitsToNat fp : Rat) / ((10 : Rat) ^ fp.length)
    let ex : Bool × Int :=
      match fpRest.2 with
      | [] => (true, 0)
      | 'e' :: rest => parseExp rest
      | 'E' :: rest => parseExp rest
      | _ => (false, 0)
    if !ex.1 then none
    else some ((sgn.1 : Rat) * mant * (10 : Rat) ^ ex.2)

/-- Python `float(v.get(k, 0))`: a missing key gives `float(0) = 0.0`; a
string leaf is parsed as a float literal; any other value raises. -/
def XVal.pyFloatGet (v : XVal) (k : String) : Except String Rat :=
  match v with
  | .obj fs =>
    match alookup fs k with
    | none => Except.ok 0
    | some (.s t) =>
      match parsePyFloat t with
      | some q => Except.ok q
      | none => Except.error ("could not convert string to float: " ++ t)
    | some _ => Except.error "float() argument must be a string or a real number"
  | _ => Except.error "AttributeError: no attribute get"


/-! ## src/agents/extraction_agent.py — structured (XML) path -/

/-- The `emitente` sub-dictionary built by `_extract_from_xml`. -/
structure Emitente where
  cnpj : String
  razao_social : String
  nome_fantasia : String
  endereco : String
  ie : String
  im : String
deriving DecidableEq, Repr

/-- The `destinatario` sub-dictionary built by `_extract_from_xml`. -/
structure Destinatario where
  cnpj : String
  cpf : String
  nome : String
  endereco : String
  ie : String
deriving DecidableEq, Repr

/-- One entry of `itens` built by `_extract_from_xml`. -/
structure ItemExt where
  codigo : String
  descricao : String
  ncm : String
  cfop : String
  cst_icms : String
  cst_ipi : String
  cst_pis : String
  cst_cofins : String
  unidade : String
  quantidade : Rat
  valor_unitario : Rat
  valor_total : Rat
deriving DecidableEq, Repr

/-- The `totais` sub-dictionary built by `_extract_from_xml`. -/
structure TotaisExt where
  valor_produtos : Rat
  valor_frete : Rat
  valor_seguro : Rat
  valor_desconto : Rat
  valor_total : Rat
deriving DecidableEq, Repr

/-- The `informacoes_adicionais` sub-dictionary built by
`_extract_from_xml`. -/
structure InfoAdic where
  numero : String
  serie : String
  data_emissao : String
  chave_acesso : String
deriving DecidableEq, Repr

/-- The full extraction result dictionary.  `none` for a sub-dictionary
models the empty `{}` of the initial skeleton. -/
structure ExtractedRecord where
  fonte : String
  emitente : Option Emitente
  destinatario : Option Destinatario
  itens : List ItemExt
  totais : Option TotaisExt
  impostos : List (String × Rat)
  informacoes_adicionais : Option InfoAdic
deriving DecidableEq, Repr

/-- The empty skeleton `extracted` that `_extract_from_xml` initializes and
returns unchanged when no NFe wrapper key is present. -/
def emptyExtracted : ExtractedRecord := ⟨"XML", none, none, [], none, [], none⟩

/-- Embeds `_format_endereco`: join the present address components with
", ", skipping falsy ones; a falsy (missing/empty) address gives "". -/
def format_endereco (endereco : XVal) : Except String String :=
  if !(pyTruthy endereco) then Except.ok ""
  else do
    let xLgr ← endereco.strGet "xLgr"
    let nro ← endereco.strGet "nro"
    let xCpl ← endereco.strGet "xCpl"
    let xBairro ← endereco.strGet "xBairro"
    let xMun ← endereco.strGet "xMun"
    let uf ← endereco.strGet "UF"
    let cep ← endereco.strGet "CEP"
    let partes := [xLgr, nro, xCpl, xBairro, xMun, uf, cep]
    Except.ok (String.intercalate ", " (partes.filter (fun p => p != "")))

/-- Loop of `_extract_cst_icms` over the keys of the ICMS dictionary: the
first `ICMS*` sub-block carrying `CST` (normal regime) or `CSOSN`
(Simples Nacional) wins; blocks with neither are skipped. -/
def cstIcmsLoop : List (String × XVal) → Except String String
  | [] => Except.ok ""
  | (k, v) :: rest =>
    if k.startsWith "ICMS" then
      if v.containsB "CST" then do
        let w ← v.index "CST"
        w.asStr
      else if v.containsB "CSOSN" then do
        let w ← v.index "CSOSN"
        w.asStr
      else cstIcmsLoop rest
    else cstIcmsLoop rest

/-- Python `.keys()`/`.items()` iteration source: the field list of a dict;
raises on non-dicts. -/
def XVal.dictFields (v : XVal) : Except String (List (String × XVal)) :=
  match v with
  | .obj fs => Except.ok fs
  | _ => Except.error "AttributeError: no attribute keys"

/-- Embeds `_extract_cst_icms`. -/
def extract_cst_icms (imposto : XVal) : Except String String :=
  if !(pyTruthy imposto) || !(imposto.containsB "ICMS") then Except.ok ""
  else do
    let icms ← imposto.index "ICMS"
    let fs ← icms.dictFields
    cstIcmsLoop fs

/-- Loop of `_extract_cst_from_tax` over `tax_data.items()`: the first value
that is a dict containing a `CST` key wins. -/
def cstTaxLoop : List (String × XVal) → Except String String
  | [] => Except.ok ""
  | (_, v) :: rest =>
    match v with
    | .obj vfs =>
      if vfs.any (fun p => p.1 == "CST") then do
        let w ← XVal.index (.obj vfs) "CST"
        w.asStr
      else cstTaxLoop rest
    | _ => cstTaxLoop rest

/-- Embeds `_extract_cst_from_tax`. -/
def extract_cst_from_tax (tax_data : XVal) : Except String String :=
  if !(pyTruthy tax_data) then Except.ok ""
  else do
    let fs ← tax_data.dictFields
    cstTaxLoop fs

/-- Embeds one iteration of the items loop of `_extract_from_xml`. -/
def extractItem (item : XVal) : Except String ItemExt := do
  let prod ← item.pyGet "prod" (.obj [])
  let imposto ← item.pyGet "imposto" (.obj [])
  let cst_icms ← extract_cst_icms imposto
  let ipi ← imposto.pyGet "IPI" (.obj [])
  let cst_ipi ← extract_cst_from_tax ipi
  let pis ← imposto.pyGet "PIS" (.obj [])
  let cst_pis ← extract_cst_from_tax pis
  let cofins ← imposto.pyGet "COFINS" (.obj [])
  let cst_cofins ← extract_cst_from_tax cofins
  let codigo ← prod.strGet "cProd"
  let descricao ← prod.strGet "xProd"
  let ncm ← prod.strGet "NCM"
  let cfop ← prod.strGet "CFOP"
  let unidade ← prod.strGet "uCom"
  let quantidade ← prod.pyFloatGet "qCom"
  let valor_unitario ← prod.pyFloatGet "vUnCom"
  let valor_total ← prod.pyFloatGet "vProd"
  Except.ok ⟨codigo, descricao, ncm, cfop, cst_icms, cst_ipi, cst_pis, cst_cofins,
    unidade, quantidade, valor_unitario, valor_total⟩

/-- Python dict assignment `taxes[tax_id] = total_value`: replace in place
when the key exists, append otherwise. -/
def dictInsert (d : List (String × Rat)) (k : String) (v : Rat) : List (String × Rat) :=
  if d.any (fun p => p.1 == k) then d.map (fun p => if p.1 == k then (k, v) else p)
  else d ++ [(k, v)]

/-- Inner loop of `_extract_taxes_from_xml`: sum `float(icms_tot.get(f, 0))`
over the tax's configured `xml_fields`. -/
def sumTaxFields (icms_tot : XVal) : List String → Rat → Except String Rat
  | [], acc => Except.ok acc
  | f :: rest, acc => do
    let v ← icms_tot.pyFloatGet f
    sumTaxFields icms_tot rest (acc + v)

/-- Outer loop of `_extract_taxes_from_xml` over the enabled taxes. -/
def taxesLoop (icms_tot : XVal) : List TaxDef → List (String × Rat) →
    Except String (List (String × Rat))
  | [], taxes => Except.ok taxes
  | t :: rest, taxes => do
    let total ← sumTaxFields icms_tot t.xml_fields 0
    taxesLoop icms_tot rest (dictInsert taxes t.id total)

/-- Embeds `_extract_taxes_from_xml`: one key per enabled configured tax,
valued by the sum of its `xml_fields` out of the tax-totals block. -/
def extractTaxesFromXml (cfg : ConfigFile) (icms_tot : XVal) :
    Except String (List (String × Rat)) :=
  taxesLoop icms_tot (cfg.get_all_taxes true) []

/-- Key membership on a top-level xmltodict dictionary. -/
def hasKeyList (fs : List (String × XVal)) (k : String) : Bool :=
  fs.any (fun p => p.1 == k)

/-- Top-level dict indexing `xml_data[k]`. -/
def dictIndex (fs : List (String × XVal)) (k : String) : Except String XVal :=
  match alookup fs k with
  | some v => Except.ok v
  | none => Except.error ("KeyError: " ++ k)

/-- Navigation to `infNFe`: `xml_data['nfeProc']['NFe']['infNFe']` when the
`nfeProc` wrapper is present, else `xml_data['NFe']['infNFe']`. -/
def navNfe (xml_data : List (String × XVal)) : Except String XVal :=
  if hasKeyList xml_data "nfeProc" then do
    let a ← dictIndex xml_data "nfeProc"
    let b ← a.index "NFe"
    b.index "infNFe"
  else do
    let a ← dictIndex xml_data "NFe"
    a.index "infNFe"

/-- The `emit` block of `_extract_from_xml`. -/
def extractEmitente (nfe : XVal) : Except String (Option Emitente) :=
  if nfe.containsB "emit" then do
    let emit ← nfe.index "emit"
    let cnpj ← emit.strGet "CNPJ"
    let xNome ← emit.strGet "xNome"
    let xFant ← emit.strGet "xFant"
    let ender ← emit.pyGet "enderEmit" (.obj [])
    let endereco ← format_endereco ender
    let ie ← emit.strGet "IE"
    let im ← emit.strGet "IM"
    Except.ok (some ⟨cnpj, xNome, xFant, endereco, ie, im⟩)
  else Except.ok none

/-- The `dest` block of `_extract_from_xml`. -/
def extractDestinatario (nfe : XVal) : Except String (Option Destinatario) :=
  if nfe.containsB "dest" then do
    let dest ← nfe.index "dest"
    let cnpj ← dest.strGet "CNPJ"
    let cpf ← dest.strGet "CPF"
    let nome ← dest.strGet "xNome"
    let ender ← dest.pyGet "enderDest" (.obj [])
    let endereco ← format_endereco ender
    let ie ← dest.strGet "IE"
    Except.ok (some ⟨cnpj, cpf, nome, endereco, ie⟩)
  else Except.ok none

/-- The `det` block of `_extract_from_xml`: a single item dict is wrapped in
a singleton list. -/
def extractItens (nfe : XVal) : Except String (List ItemExt) :=
  if nfe.containsB "det" then do
    let det ← nfe.index "det"
    let lst := match det with | .arr xs => xs | v => [v]
    lst.mapM extractItem
  else Except.ok []

/-- The `total` block of `_extract_from_xml`: the five monetary totals plus
the dynamically-configured tax totals; an absent block leaves both at their
skeleton values (`{}`). -/
def extractTotais (cfg : ConfigFile) (nfe : XVal) :
    Except String (Option TotaisExt × List (String × Rat)) :=
  if nfe.containsB "total" then do
    let tot ← nfe.index "total"
    let icms_tot ← tot.pyGet "ICMSTot" (.obj [])
    let vProd ← icms_tot.pyFloatGet "vProd"
    let vFrete ← icms_tot.pyFloatGet "vFrete"
    let vSeg ← icms_tot.pyFloatGet "vSeg"
    let vDesc ← icms_tot.pyFloatGet "vDesc"
    let vNF ← icms_tot.pyFloatGet "vNF"
    let imp ← extractTaxesFromXml cfg icms_tot
    Except.ok (some ⟨vProd, vFrete, vSeg, vDesc, vNF⟩, imp)
  else Except.ok (none, [])

/-- The `ide` block of `_extract_from_xml`; the access key is the `@Id`
attribute with every occurrence of "NFe" removed (Python `str.replace`). -/
def extractInfos (nfe : XVal) : Except String (Option InfoAdic) :=
  if nfe.containsB "ide" then do
    let ide ← nfe.index "ide"
    let numero ← ide.strGet "nNF"
    let serie ← ide.strGet "serie"
    let dhEmi ← ide.strGet "dhEmi"
    let idAttr ← nfe.strGet "@Id"
    Except.ok (some ⟨numero, serie, dhEmi, idAttr.replace "NFe" ""⟩)
  else Except.ok none

/-- Embeds the body of `_extract_from_xml` (inside its try/except): returns
the skeleton when no NFe wrapper is recognized, otherwise fills each block
in source order; any Pythonic exception surfaces as `Except.error`. -/
def extractFromXmlE (cfg : ConfigFile) (xml_data : List (String × XVal)) :
    Except String ExtractedRecord :=
  if !(hasKeyList xml_data "nfeProc") && !(hasKeyList xml_data "NFe") then
    Except.ok emptyExtracted
  else do
    let nfe ← navNfe xml_data
    let emitente ← extractEmitente nfe
    let destinatario ← extractDestinatario nfe
    let itens ← extractItens nfe
    let tot ← extractTotais cfg nfe
    let infos ← extractInfos nfe
    Except.ok ⟨"XML", emitente, destinatario, itens, tot.1, tot.2, infos⟩


/-! ## src/workflow_graph.py — state and nodes, with the external
collaborators (file processors, LLM oracle, JSON parsing of an oracle
reply) injected as parameters -/

/-- The classification dictionary set by `ClassificationAgent.classify`. -/
structure Classification where
  file_format : String
  document_type : String
  agent : String
deriving DecidableEq, Repr

/-- Result dictionary of the file processors (`process_xml` etc.): success
flag, parsed XML tree, OCR text, optional image, optional error message. -/
structure ProcessedData where
  success : Bool
  data : Option (List (String × XVal))
  text : String
  image_base64 : Option String
  error : Option String

/-- The initial empty `processed_data` dictionary. -/
def ProcessedData.empty : ProcessedData := ⟨false, none, "", none, none⟩

/-- The `extracted_data` slot: initial `{}`, a successful record, or an
error dictionary `{'error': msg, ...}` (the visual-path failure dictionary
also carries `raw_response` and `fonte`; only the error entry is
behaviorally read downstream). -/
inductive ExtractedResult
  | emptyDict
  | ok (r : ExtractedRecord)
  | err (msg : String)

/-- The LangGraph `WorkflowState` dictionary. -/
structure WState where
  file_path : String
  filename : String
  processed_data : ProcessedData
  classification : Option Classification
  extracted_data : ExtractedResult
  validation : Option Validations
  status : String
  errors : List String

/-- The initial state built by `process_invoice`. -/
def initialState (file_path filename : String) : WState :=
  ⟨file_path, filename, ProcessedData.empty, none, ExtractedResult.emptyDict,
    none, "pending", []⟩

/-- Embeds `os.path.splitext(...)[1]`: the extension starts at the last dot,
but leading dots of the name never start an extension. -/
def pySplitextExt (filename : String) : String :=
  let cs := filename.toList
  let rest := cs.dropWhile (fun c => c == '.')
  let afterDot := (rest.reverse.takeWhile (fun c => c != '.')).reverse
  if afterDot.length == rest.length then ""
  else String.mk ('.' :: afterDot)

/-- Embeds `get_file_type` of src/utils/file_processor.py. -/
def get_file_type (filename : String) : String :=
  let ext := strLower (pySplitextExt filename)
  if ext == ".xml" then "xml"
  else if ext == ".pdf" then "pdf"
  else if ext == ".jpg" || ext == ".jpeg" || ext == ".png" || ext == ".bmp" ||
    ext == ".tiff" then "image"
  else "unknown"

/-- Embeds `process_file_node`: dispatch on the detected file type to the
external processor (injected as `fsResult`), record the outcome, append the
processing error to `errors` when unsuccessful. -/
def process_file_node (fsResult : String → ProcessedData) (st : WState) : WState :=
  let file_type := get_file_type st.filename
  let processed :=
    if file_type == "xml" then fsResult "xml"
    else if file_type == "pdf" then fsResult "pdf"
    else if file_type == "image" then fsResult "image"
    else ⟨false, none, "", none, some "Formato não suportado"⟩
  let st1 := {st with processed_data := processed, status := "processed"}
  if !processed.success then
    {st1 with errors := st1.errors ++ [processed.error.getD "Erro no processamento"]}
  else st1

/-! ## src/agents/classification_agent.py -/

mutual

/-- Python `str(...)` of an XML value, as used by `_classify_xml` for the
NFSe substring test (repr of nested dicts/lists/strings). -/
def pyReprVal : XVal → String
  | .s t => "'" ++ t ++ "'"
  | .obj fs => "\x7b" ++ pyReprFields fs ++ "\x7d"
  | .arr xs => "[" ++ pyReprElems xs ++ "]"

def pyReprFields : List (String × XVal) → String
  | [] => ""
  | [(k, v)] => "'" ++ k ++ "': " ++ pyReprVal v
  | (k, v) :: rest => "'" ++ k ++ "': " ++ pyReprVal v ++ ", " ++ pyReprFields rest

def pyReprElems : List XVal → String
  | [] => ""
  | [v] => pyReprVal v
  | v :: rest => pyReprVal v ++ ", " ++ pyReprElems rest

end

/-- Embeds `_classify_xml`: structural signature inspection with the
serialized-content fallback for NFSe. -/
def classify_xml (st : WState) : String :=
  let xml_data := st.processed_data.data.getD []
  if hasKeyList xml_data "nfeProc" || hasKeyList xml_data "NFe" then "NFe"
  else if hasKeyList xml_data "cteProc" || hasKeyList xml_data "CTe" then "CTe"
  else if pyIn "nfse" (strLower (pyReprVal (.obj xml_data))) then "NFSe"
  else "XML Fiscal"

/-- Embeds `_classify_visual`: the oracle reply (or failure) is injected; a
failure of any kind inside the try block surfaces as the error string
`Erro na classificação: ...` returned in place of a document type; a reply
is normalized through the fixed first-match-wins substring cascade. -/
def classify_visual (oracle : Except String String) : String :=
  match oracle with
  | .error e => "Erro na classificação: " ++ e
  | .ok content =>
    let doc_type := pyStrip content
    let dl := strLower doc_type
    if pyIn "nfe" dl && !(pyIn "nfce" dl) then "NFe"
    else if pyIn "nfce" dl || pyIn "consumidor" dl then "NFCe"
    else if pyIn "sat" dl then "SAT"
    else if pyIn "cte" dl || pyIn "transporte" dl then "CTe"
    else if pyIn "nfse" dl || pyIn "serviço" dl then "NFSe"
    else if pyIn "cupom" dl then "Cupom Fiscal"
    else doc_type

/-- Embeds `ClassificationAgent.classify`: dispatch on the file format,
store the classification dictionary, advance the status to classified. -/
def ClassificationAgent.classify (oracle : Except String String) (st : WState) : WState :=
  let file_format := get_file_type st.filename
  let doc_type :=
    if file_format == "xml" then classify_xml st
    else if file_format == "pdf" || file_format == "image" then classify_visual oracle
    else "unknown"
  {st with
    classification := some ⟨file_format, doc_type, "ClassificationAgent"⟩,
    status := "classified"}

/-- Embeds `classify_node`: the agent constructor raises ValueError when the
GROQ_API_KEY environment variable is absent (`apiKey = false`), which the
node catches, appending a configuration error and forcing the error status;
otherwise the agent runs (its own failures are already soft-failed inside
`_classify_visual`). -/
def classify_node (apiKey : Bool) (oracle : Except String String) (st : WState) : WState :=
  if !apiKey then
    {st with
      errors := st.errors ++
        ["Erro de configuração: GROQ_API_KEY não configurada. Configure a chave de API do Groq nas variáveis de ambiente."],
      status := "error"}
  else ClassificationAgent.classify oracle st

/-! ## src/agents/extraction_agent.py — dispatch and visual path -/

/-- Embeds `_extract_from_xml` including its try/except: a Pythonic
exception during tree walking becomes the error dictionary
`{'error': 'Erro ao extrair XML: ...'}`. -/
def extract_from_xml (cfg : ConfigFile) (st : WState) : ExtractedResult :=
  match extractFromXmlE cfg (st.processed_data.data.getD []) with
  | .ok r => .ok r
  | .error e => .err ("Erro ao extrair XML: " ++ e)

/-- Embeds `_extract_from_visual`: the oracle reply and the JSON decoding of
it are the injected external boundary; code fences are stripped first; an
unparseable reply yields the error dictionary (which also carries the raw
reply), an oracle failure yields `Erro na extração visual: ...`. -/
def extract_from_visual (oracle : Except String String)
    (jsonParse : String → Option ExtractedRecord) : ExtractedResult :=
  match oracle with
  | .error e => .err ("Erro na extração visual: " ++ e)
  | .ok content =>
    let response_text := pyStrip content
    let rt :=
      if pyIn "```json" response_text then
        pyStrip ((((response_text.splitOn "```json").getD 1 "").splitOn "```").getD 0 "")
      else if pyIn "```" response_text then
        pyStrip ((((response_text.splitOn "```").getD 1 "").splitOn "```").getD 0 "")
      else response_text
    match jsonParse rt with
    | some r => .ok {r with fonte := "IA + OCR"}
    | none => .err "Falha ao extrair JSON"

/-- Embeds `ExtractionAgent.extract`: strategy dispatch on the classified
file format; the result (success or error dictionary) is stored in
`extracted_data` and the status advances to extracted — note the errors
list is never touched here. -/
def ExtractionAgent.extract (cfg : ConfigFile) (oracle : Except String String)
    (jsonParse : String → Option ExtractedRecord) (st : WState) : WState :=
  let extracted :=
    match st.classification with
    | none => ExtractedResult.err "Formato não suportado"
    | some c =>
      if c.file_format == "xml" then extract_from_xml cfg st
      else if c.file_format == "pdf" || c.file_format == "image" then
        extract_from_visual oracle jsonParse
      else ExtractedResult.err "Formato não suportado"
  {st with extracted_data := extracted, status := "extracted"}

/-- Embeds `extract_node`, like `classify_node` catching only the missing
API key at agent construction (the agent catches its own internal
exceptions and returns error dictionaries instead). -/
def extract_node (apiKey : Bool) (cfg : ConfigFile) (oracle : Except String String)
    (jsonParse : String → Option ExtractedRecord) (st : WState) : WState :=
  if !apiKey then
    {st with
      errors := st.errors ++
        ["Erro de configuração: GROQ_API_KEY não configurada. Configure a chave de API do Groq nas variáveis de ambiente."],
      status := "error"}
  else ExtractionAgent.extract cfg oracle jsonParse st

/-- The validator reads `extracted_data` through defaulted dict lookups; on
the error dictionary (or the initial `{}`) every lookup yields its
default. -/
def ExtractedResult.validationView : ExtractedResult → VData
  | .ok r =>
    ⟨(r.emitente.map Emitente.cnpj).getD "",
     (r.destinatario.map Destinatario.cnpj).getD "",
     (r.destinatario.map Destinatario.cpf).getD "",
     (r.informacoes_adicionais.map InfoAdic.chave_acesso).getD "",
     r.totais.map (fun t => ⟨t.valor_total, t.valor_produtos⟩),
     r.itens.map (fun it => ⟨it.quantidade, it.valor_unitario, it.valor_total⟩)⟩
  | _ => ⟨"", "", "", "", none, []⟩

/-- Embeds `validate_node` (the state-level `ValidationAgent.validate`):
stores the validation result and advances the status. -/
def validate_node (st : WState) : WState :=
  {st with
    validation := some (ValidationAgent.validate st.extracted_data.validationView),
    status := "validated"}

/-- The LangGraph END sentinel. -/
def ENDnode : String := "__end__"

/-- Embeds `should_continue`: a non-empty errors list ends the run
immediately; otherwise the status selects the next node. -/
def should_continue (st : WState) : String :=
  if !st.errors.isEmpty then ENDnode
  else
    if st.status == "processed" then "classify"
    else if st.status == "classified" then "extract"
    else if st.status == "extracted" then "validate"
    else if st.status == "validated" then ENDnode
    else ENDnode

/-- The external collaborators of one pipeline run. -/
structure PipelineDeps where
  apiKey : Bool
  cfg : ConfigFile
  classifyOracle : Except String String
  extractOracle : Except String String
  jsonParse : String → Option ExtractedRecord
  fsResult : String → ProcessedData

/-- Node dispatch of the compiled graph. -/
def stepNode (deps : PipelineDeps) (node : String) (st : WState) : WState :=
  if node == "classify" then classify_node deps.apiKey deps.classifyOracle st
  else if node == "extract" then
    extract_node deps.apiKey deps.cfg deps.extractOracle deps.jsonParse st
  else if node == "validate" then validate_node st
  else st

/-- The conditional-edge loop of the compiled LangGraph: run
`should_continue`, stop on END, else run the chosen node (fuel-bounded; the
graph has four nodes, so fuel 4 after the entry node is exact). -/
def runWorkflow (deps : PipelineDeps) : Nat → WState → WState
  | 0, st => st
  | n + 1, st =>
    let nxt := should_continue st
    if nxt == ENDnode then st
    else runWorkflow deps n (stepNode deps nxt st)

/-- Embeds `process_invoice`: the entry node followed by the conditional
edges until END. -/
def process_invoice (deps : PipelineDeps) (file_path filename : String) : WState :=
  runWorkflow deps 4 (process_file_node deps.fsResult (initialState file_path filename))


/-- Helper: a non-empty errors list ends the workflow at once. -/
lemma should_continue_end_of_errors (st : WState) (h : st.errors ≠ []) :
    should_continue st = ENDnode := by
  unfold should_continue
  have he : st.errors.isEmpty = false := by
    cases herr : st.errors with
    | nil => exact absurd herr h
    | cons a l => rfl
  rw [he]
  rfl

/-- C9: if the oracle call fails during visual classification, the
Classifier returns the error message string as the document type instead of
raising: the classification slot is filled with the error text, the status
still advances to classified, the errors list is untouched, and (when no
prior errors exist) the workflow proceeds to the extract node. -/
theorem classification_soft_fail (st : WState) (e : String)
    (hft : get_file_type st.filename = "pdf" ∨ get_file_type st.filename = "image") :
    (ClassificationAgent.classify (Except.error e) st).classification =
      some ⟨get_file_type st.filename, "Erro na classificação: " ++ e,
        "ClassificationAgent"⟩ ∧
    (ClassificationAgent.classify (Except.error e) st).status = "classified" ∧
    (ClassificationAgent.classify (Except.error e) st).errors = st.errors ∧
    (st.errors = [] →
      should_continue (ClassificationAgent.classify (Except.error e) st) = "extract") := by
  unfold ClassificationAgent.classify classify_visual
  rcases hft with h | h <;>
    rw [h] <;>
    refine ⟨by simp, rfl, rfl, ?_⟩ <;>
    · intro he
      unfold should_continue
      simp [he]

/-- Witness for C9: a PDF upload with a failing oracle still classifies
(with the error text as document type) and proceeds to extraction. -/
theorem classification_soft_fail_witness :
    (ClassificationAgent.classify (Except.error "boom")
        (initialState "/tmp/doc.pdf" "doc.pdf")).classification =
      some ⟨get_file_type "doc.pdf", "Erro na classificação: " ++ "boom",
        "ClassificationAgent"⟩ ∧
    (ClassificationAgent.classify (Except.error "boom")
        (initialState "/tmp/doc.pdf" "doc.pdf")).status = "classified" ∧
    should_continue (ClassificationAgent.classify (Except.error "boom")
        (initialState "/tmp/doc.pdf" "doc.pdf")) = "extract" := by
  have h := classification_soft_fail (initialState "/tmp/doc.pdf" "doc.pdf") "boom"
    (Or.inl rfl)
  exact ⟨h.1, h.2.1, h.2.2.2 rfl⟩

/-- Concrete run used by C1: a .xml upload whose parsed tree maps `nfeProc`
to a bare string, so `_extract_from_xml` raises internally (TypeError on
string indexing) and extraction returns an error dictionary. -/
def depsC1 : PipelineDeps :=
  ⟨true, ⟨[⟨"icms", "ICMS", "Imposto ICMS", "", ["vICMS"], "", [], some true⟩], [], ""⟩,
   Except.ok "", Except.ok "", fun _ => none,
   fun _ => ⟨true, some [("nfeProc", XVal.s "x")], "", none, none⟩⟩

/-- The final state of that run. -/
def runC1 : WState := process_invoice depsC1 "/tmp/nota.xml" "nota.xml"

/-- Counterexample to C1 as stated: this document's extraction step fails
(an ExtractionError dictionary is produced), yet the pipeline does not halt
— the errors list stays empty, the Validator runs, and the run ends in the
validated status with a validation result present. -/
theorem pipeline_extraction_error_counterexample :
    runC1.extracted_data = ExtractedResult.err
      "Erro ao extrair XML: TypeError: string indices must be integers" ∧
    runC1.errors = [] ∧
    runC1.status = "validated" ∧
    runC1.validation.isSome = true :=
  ⟨rfl, rfl, rfl, rfl⟩

/-- C1 (amended): a component that appends to the errors list does force an
immediate transition to the terminal state with no further node invoked;
but an ExtractionError is stored inside `extracted_data` without appending
to `errors` (only an exception escaping the agent, e.g. the missing API
key, appends), so the extract node leaves `errors` unchanged and — in the
configured-key case with no prior errors — the workflow always proceeds
from extraction to the Validator, ExtractionError or not. -/
theorem pipeline_error_short_circuit :
    (∀ st : WState, st.errors ≠ [] → should_continue st = ENDnode) ∧
    (∀ deps : PipelineDeps, ∀ n : Nat, ∀ st : WState, st.errors ≠ [] →
      runWorkflow deps n st = st) ∧
    (∀ cfg : ConfigFile, ∀ oracle : Except String String,
      ∀ jp : String → Option ExtractedRecord, ∀ st : WState,
      (extract_node true cfg oracle jp st).errors = st.errors) ∧
    (∀ cfg : ConfigFile, ∀ oracle : Except String String,
      ∀ jp : String → Option ExtractedRecord, ∀ st : WState, st.errors = [] →
      should_continue (extract_node true cfg oracle jp st) = "validate") := by
  refine ⟨should_continue_end_of_errors, ?_, ?_, ?_⟩
  · intro deps n st h
    cases n with
    | zero => rfl
    | succ n =>
      unfold runWorkflow
      rw [should_continue_end_of_errors st h]
      simp
  · intro cfg oracle jp st
    rfl
  · intro cfg oracle jp st he
    unfold should_continue extract_node ExtractionAgent.extract
    simp [he]

/-- Witness for C1: the short-circuit on a state with one error, and the
extraction step of the C1 run advancing to the Validator. -/
theorem pipeline_error_short_circuit_witness :
    should_continue ⟨"", "x.xml", ProcessedData.empty, none,
      ExtractedResult.emptyDict, none, "processed", ["boom"]⟩ = ENDnode ∧
    runWorkflow depsC1 3 ⟨"", "x.xml", ProcessedData.empty, none,
      ExtractedResult.emptyDict, none, "processed", ["boom"]⟩ =
      ⟨"", "x.xml", ProcessedData.empty, none,
        ExtractedResult.emptyDict, none, "processed", ["boom"]⟩ ∧
    should_continue (extract_node true depsC1.cfg depsC1.extractOracle depsC1.jsonParse
      ⟨"", "x.xml", ProcessedData.empty, none, ExtractedResult.emptyDict, none,
        "classified", []⟩) = "validate" := by
  refine ⟨?_, ?_, ?_⟩
  · exact pipeline_error_short_circuit.1 _ (by simp)
  · exact pipeline_error_short_circuit.2.1 depsC1 3 _ (by simp)
  · exact pipeline_error_short_circuit.2.2.2 depsC1.cfg depsC1.extractOracle
      depsC1.jsonParse _ rfl


/-! ## C2: tax-totals schema invariant -/

lemma bindOk {α β : Type} {x : Except String α} {f : α → Except String β} {b : β}
    (h : (x >>= f) = Except.ok b) : ∃ a, x = Except.ok a ∧ f a = Except.ok b := by
  cases x with
  | error e => simp [Bind.bind, Except.bind] at h
  | ok a => exact ⟨a, rfl, by simpa [Bind.bind, Except.bind] using h⟩

lemma alookup_replace_ne {α : Type} (d : List (String × α)) (k j : String) (v : α)
    (hjk : (j == k) = false) :
    alookup (d.map (fun p => if p.1 == k then (k, v) else p)) j = alookup d j := by
  have hjk2 : j ≠ k := by simpa using hjk
  induction d with
  | nil => rfl
  | cons p rest ih =>
    obtain ⟨pk, pv⟩ := p
    by_cases hpk : pk = k
    · subst hpk
      have hkj : pk ≠ j := fun h => hjk2 h.symm
      simp only [List.map_cons]
      simp [alookup, apply_ite, hkj]
      simpa using ih
    · by_cases hpj : pk = j
      · subst hpj
        simp [alookup, apply_ite, hpk]
      · simp [alookup, apply_ite, hpk, hpj]
        simpa using ih

lemma alookup_replace_eq {α : Type} (d : List (String × α)) (k : String) (v : α)
    (hk : d.any (fun p => p.1 == k) = true) :
    alookup (d.map (fun p => if p.1 == k then (k, v) else p)) k = some v := by
  induction d with
  | nil => simp at hk
  | cons p rest ih =>
    obtain ⟨pk, pv⟩ := p
    by_cases hpk : pk = k
    · subst hpk
      simp [alookup, apply_ite]
    · simp only [List.any_cons] at hk
      have hk2 : rest.any (fun p => p.1 == k) = true := by
        rcases Bool.or_eq_true_iff.mp hk with h | h
        · exact absurd (by simpa using h) hpk
        · exact h
      simp [alookup, apply_ite, hpk]
      simpa using ih hk2

lemma alookup_append {α : Type} (d e : List (String × α)) (j : String) :
    alookup (d ++ e) j =
      match alookup d j with
      | some v => some v
      | none => alookup e j := by
  induction d with
  | nil => rfl
  | cons p rest ih =>
    obtain ⟨pk, pv⟩ := p
    by_cases hpj : pk = j
    · subst hpj
      simp [alookup]
    · simp [alookup, hpj, ih]

lemma alookup_none_of_not_any {α : Type} (d : List (String × α)) (j : String)
    (h : d.any (fun p => p.1 == j) = false) : alookup d j = none := by
  induction d with
  | nil => rfl
  | cons p rest ih =>
    obtain ⟨pk, pv⟩ := p
    simp only [List.any_cons, Bool.or_eq_false_iff] at h
    have h1 : pk ≠ j := by simpa using h.1
    simp [alookup, h1, ih h.2]

lemma alookup_dictInsert (d : List (String × Rat)) (k j : String) (v : Rat) :
    alookup (dictInsert d k v) j = if j == k then some v else alookup d j := by
  unfold dictInsert
  by_cases hany : (d.any (fun p => p.1 == k)) = true
  · rw [if_pos hany]
    by_cases hj : j = k
    · subst hj
      have h2 := alookup_replace_eq d j v hany
      simp only [beq_self_eq_true, if_true]
      simpa using h2
    · have hjb : (j == k) = false := by simpa using hj
      simp only [hjb, Bool.false_eq_true, if_false]
      exact alookup_replace_ne d k j v hjb
  · rw [if_neg hany]
    rw [alookup_append]
    by_cases hj : j = k
    · subst hj
      have hfalse : (d.any fun p => p.1 == j) = false := by
        simp only [Bool.not_eq_true] at hany
        exact hany
      rw [alookup_none_of_not_any d j hfalse]
      simp [alookup]
    · have hjb : (j == k) = false := by simpa using hj
      simp only [hjb, Bool.false_eq_true, if_false]
      cases hd : alookup d j with
      | some w => rfl
      | none =>
        have hkj : k ≠ j := fun h => hj h.symm
        simp [alookup, hkj]

lemma mem_keys_dictInsert (d : List (String × Rat)) (k j : String) (v : Rat) :
    j ∈ (dictInsert d k v).map Prod.fst ↔ j ∈ d.map Prod.fst ∨ j = k := by
  unfold dictInsert
  by_cases hany : (d.any (fun p => p.1 == k)) = true
  · rw [if_pos hany]
    have hk : k ∈ d.map Prod.fst := by
      simp only [List.any_eq_true] at hany
      obtain ⟨p, hp, hpk⟩ := hany
      exact List.mem_map.mpr ⟨p, hp, beq_iff_eq.mp hpk⟩
    have hkeys : (d.map (fun p => if p.1 == k then (k, v) else p)).map Prod.fst =
        d.map Prod.fst := by
      rw [List.map_map]
      apply List.map_congr_left
      intro p hp
      by_cases hpk : (p.1 == k) = true
      · simp only [Function.comp_apply, hpk, if_true]
        exact (beq_iff_eq.mp hpk).symm
      · simp only [Function.comp_apply, hpk, Bool.false_eq_true, if_false]
    rw [hkeys]
    constructor
    · exact Or.inl
    · rintro (h | h)
      · exact h
      · rw [h]; exact hk
  · rw [if_neg hany]
    simp

lemma taxesLoop_ok_keys (ico : XVal) (ts : List TaxDef) (acc taxes : List (String × Rat))
    (h : taxesLoop ico ts acc = Except.ok taxes) (j : String) :
    (j ∈ taxes.map Prod.fst ↔ j ∈ acc.map Prod.fst ∨ j ∈ ts.map TaxDef.id) := by
  induction ts generalizing acc with
  | nil =>
    simp only [taxesLoop] at h
    cases h
    simp
  | cons t rest ih =>
    unfold taxesLoop at h
    obtain ⟨v, hv, hrest⟩ := bindOk h
    rw [ih _ hrest, mem_keys_dictInsert]
    simp only [List.map_cons, List.mem_cons]
    tauto

lemma taxesLoop_lookup_outside (ico : XVal) (ts : List TaxDef)
    (acc taxes : List (String × Rat)) (j : String)
    (h : taxesLoop ico ts acc = Except.ok taxes) (hj : j ∉ ts.map TaxDef.id) :
    alookup taxes j = alookup acc j := by
  induction ts generalizing acc with
  | nil =>
    simp only [taxesLoop] at h
    cases h
    rfl
  | cons t rest ih =>
    unfold taxesLoop at h
    obtain ⟨v, hv, hrest⟩ := bindOk h
    simp only [List.map_cons, List.mem_cons, not_or] at hj
    rw [ih _ hrest hj.2, alookup_dictInsert]
    have : (j == t.id) = false := by
      simp only [beq_eq_false_iff_ne, ne_eq]
      exact hj.1
    rw [this]
    simp

/-- A source field is absent from the (dictionary) tax-totals block. -/
def fieldAbsentB (v : XVal) (f : String) : Bool :=
  match v with
  | .obj fs => (alookup fs f).isNone
  | _ => false

lemma sumTaxFields_absent (ico : XVal) (fs : List String) (acc : Rat)
    (h : ∀ f ∈ fs, fieldAbsentB ico f = true) : sumTaxFields ico fs acc = Except.ok acc := by
  induction fs generalizing acc with
  | nil => rfl
  | cons f rest ih =>
    have hf := h f (by simp)
    cases ico with
    | s t => simp [fieldAbsentB] at hf
    | arr xs => simp [fieldAbsentB] at hf
    | obj l =>
      have hnone : alookup l f = none := by
        simp only [fieldAbsentB, Option.isNone_iff_eq_none] at hf
        exact hf
      have hok : XVal.pyFloatGet (.obj l) f = Except.ok 0 := by
        simp [XVal.pyFloatGet, hnone]
      show (XVal.pyFloatGet (.obj l) f >>= fun v => sumTaxFields (.obj l) rest (acc + v)) =
        Except.ok acc
      rw [hok]
      show sumTaxFields (.obj l) rest (acc + 0) = Except.ok acc
      rw [add_zero]
      exact ih _ (fun g hg => h g (by simp [hg]))

lemma taxesLoop_absent_zero (ico : XVal) (ts : List TaxDef)
    (acc taxes : List (String × Rat))
    (h : taxesLoop ico ts acc = Except.ok taxes)
    (hnd : (ts.map TaxDef.id).Nodup) (t : TaxDef) (ht : t ∈ ts)
    (habs : ∀ f ∈ t.xml_fields, fieldAbsentB ico f = true) :
    alookup taxes t.id = some 0 := by
  induction ts generalizing acc with
  | nil => simp at ht
  | cons t0 rest ih =>
    unfold taxesLoop at h
    obtain ⟨v, hv, hrest⟩ := bindOk h
    simp only [List.map_cons, List.nodup_cons] at hnd
    rcases List.mem_cons.mp ht with heq | hmem
    · subst heq
      rw [sumTaxFields_absent ico t.xml_fields 0 habs] at hv
      cases hv
      rw [taxesLoop_lookup_outside ico rest _ taxes t.id hrest hnd.1]
      rw [alookup_dictInsert]
      simp
    · exact ih _ hrest hnd.2 hmem

lemma extractTaxes_keys (cfg : ConfigFile) (ico : XVal) (taxes : List (String × Rat))
    (h : extractTaxesFromXml cfg ico = Except.ok taxes) (j : String) :
    (j ∈ taxes.map Prod.fst ↔ j ∈ cfg.get_tax_ids true) := by
  have hk := taxesLoop_ok_keys ico (cfg.get_all_taxes true) [] taxes h j
  simpa [ConfigFile.get_tax_ids] using hk

lemma extractTotais_ok (cfg : ConfigFile) (nfe : XVal)
    (tot : Option TotaisExt × List (String × Rat))
    (h : extractTotais cfg nfe = Except.ok tot) :
    (tot.1.isSome = true ∧
      ∃ icms_tot, extractTaxesFromXml cfg icms_tot = Except.ok tot.2) ∨
    tot = (none, []) := by
  unfold extractTotais at h
  split at h
  · obtain ⟨a, ha, h⟩ := bindOk h
    obtain ⟨ict, hict, h⟩ := bindOk h
    obtain ⟨v1, hv1, h⟩ := bindOk h
    obtain ⟨v2, hv2, h⟩ := bindOk h
    obtain ⟨v3, hv3, h⟩ := bindOk h
    obtain ⟨v4, hv4, h⟩ := bindOk h
    obtain ⟨v5, hv5, h⟩ := bindOk h
    obtain ⟨imp, himp, h⟩ := bindOk h
    injection h with h2
    subst h2
    exact Or.inl ⟨rfl, ict, himp⟩
  · injection h with h2
    subst h2
    exact Or.inr rfl

/-- C2 (amended): whenever the structured-path extraction succeeds and the
document carried a totals block (`r.totais` is filled), the key set of the
record's taxes mapping equals the set of enabled tax ids of the
configuration, and any enabled tax whose configured source fields are all
absent from the tax-totals block is present with value 0.0; when the
document carried no totals block (or no recognized NFe wrapper), a record
is still produced but its taxes mapping is empty — a strict subset of the
enabled ids whenever any tax is enabled. -/
theorem taxes_schema_bound :
    (∀ cfg : ConfigFile, ∀ xml : List (String × XVal), ∀ r : ExtractedRecord,
      extractFromXmlE cfg xml = Except.ok r →
      ((r.totais.isSome = true → ∀ j : String,
          (j ∈ r.impostos.map Prod.fst ↔ j ∈ cfg.get_tax_ids true)) ∧
       (r.totais = none → r.impostos = []))) ∧
    (∀ cfg : ConfigFile, ∀ icms_tot : XVal, ∀ taxes : List (String × Rat),
      extractTaxesFromXml cfg icms_tot = Except.ok taxes →
      ((∀ j : String, (j ∈ taxes.map Prod.fst ↔ j ∈ cfg.get_tax_ids true)) ∧
       ((cfg.get_tax_ids true).Nodup →
         ∀ t ∈ cfg.get_all_taxes true,
           (∀ f ∈ t.xml_fields, fieldAbsentB icms_tot f = true) →
           alookup taxes t.id = some 0))) := by
  constructor
  · intro cfg xml r h
    unfold extractFromXmlE at h
    split at h
    · injection h with h2
      subst h2
      refine ⟨fun hs => ?_, fun _ => rfl⟩
      simp [emptyExtracted] at hs
    · obtain ⟨nfe, hnfe, h⟩ := bindOk h
      obtain ⟨emi, hemi, h⟩ := bindOk h
      obtain ⟨des, hdes, h⟩ := bindOk h
      obtain ⟨its, hits, h⟩ := bindOk h
      obtain ⟨tot, htot, h⟩ := bindOk h
      obtain ⟨inf, hinf, h⟩ := bindOk h
      injection h with h2
      subst h2
      rcases extractTotais_ok cfg nfe tot htot with ⟨hsome, ict, hty⟩ | hnone
      · refine ⟨fun _ j => extractTaxes_keys cfg ict tot.2 hty j, fun hnone2 => ?_⟩
        exact absurd hsome (by simp [show tot.1 = none from hnone2])
      · refine ⟨fun hs j => ?_, fun _ => ?_⟩
        · exact absurd hs (by simp [hnone])
        · simp [hnone]
  · intro cfg ico taxes h
    refine ⟨extractTaxes_keys cfg ico taxes h, fun hnd t ht habs => ?_⟩
    exact taxesLoop_absent_zero ico (cfg.get_all_taxes true) [] taxes h hnd t ht habs

/-- Configuration with a single enabled tax, used for the C2 example
documents. -/
def cfgC2 : ConfigFile :=
  ⟨[⟨"icms", "ICMS", "Imposto sobre Circulação de Mercadorias", "", [], "", [], some true⟩],
   [], ""⟩

/-- Counterexample to C2 as stated: a well-formed NFe wrapper without a
`total` block extracts successfully to the skeleton record, whose taxes
mapping is empty while one tax id is enabled — the key set does not equal
the enabled-id set. -/
theorem taxes_schema_counterexample :
    extractFromXmlE cfgC2 [("NFe", XVal.obj [("infNFe", XVal.obj [])])] =
      Except.ok emptyExtracted ∧
    emptyExtracted.impostos = [] ∧
    cfgC2.get_tax_ids true = ["icms"] :=
  ⟨rfl, rfl, rfl⟩

/-- Witness for C2 (amended): with the single enabled tax and an empty
tax-totals block, the produced mapping has exactly the enabled key, that
key holds 0, and the no-totals record has an empty mapping. -/
theorem taxes_schema_bound_witness :
    ("icms" ∈ ([("icms", (0 : Rat))].map Prod.fst) ↔ "icms" ∈ cfgC2.get_tax_ids true) ∧
    alookup [("icms", (0 : Rat))] "icms" = some 0 ∧
    (emptyExtracted.totais = none → emptyExtracted.impostos = []) := by
  have h2 := taxes_schema_bound.2 cfgC2 (XVal.obj []) [("icms", 0)] rfl
  have h1 := taxes_schema_bound.1 cfgC2 [("NFe", XVal.obj [("infNFe", XVal.obj [])])]
    emptyExtracted rfl
  refine ⟨h2.1 "icms", ?_, h1.2⟩
  exact h2.2 (by decide)
    ⟨"icms", "ICMS", "Imposto sobre Circulação de Mercadorias", "", [], "", [], some true⟩
    (by decide) (by decide)

/-! ## src/agents/analysis_agent.py — `_generate_recommendations`, the
analyzer's threshold-insight generator.  Its input dictionaries (`totais`,
`impostos`) are association lists of exact rationals; `numItens` is
`len(data.get('itens', []))`. -/

/-- The literal over-30% tax burden recommendation message. -/
def rec30Msg : String :=
  "⚠️ Carga tributária acima de 30% - Considere revisar o regime tributário"

/-- The literal over-40% tax burden recommendation message. -/
def rec40Msg : String :=
  "🔴 Carga tributária muito alta (>40%) - Recomenda-se consultoria fiscal"

/-- The literal over-15% discount recommendation message. -/
def recDescontoMsg : String :=
  "💡 Desconto significativo aplicado (>15%) - Verifique margem de lucro"

/-- The literal over-50-items recommendation message. -/
def recItensMsg : String :=
  "📊 Nota fiscal com muitos itens - Considere uso de sistema ERP para gestão"

/-- The literal fallback no-issues message. -/
def recOkMsg : String := "✅ Documento dentro dos padrões normais"

/-- Embeds `AnalysisAgent._generate_recommendations`: the tax-burden 30%/40%
checks (only when the products total is positive), the discount check, the
item-count check, then the fallback message when nothing triggered. -/
def generateRecommendations (totais impostos : List (String × Rat))
    (numItens : Nat) : List String :=
  let total_produtos := (alookup totais "produtos").getD 0
  let total_impostos := (alookup impostos "icms").getD 0 + (alookup impostos "ipi").getD 0 +
    (alookup impostos "pis").getD 0 + (alookup impostos "cofins").getD 0
  let recs0 : List String := []
  let recs1 :=
    if total_produtos > 0 then
      let carga_tributaria := total_impostos / total_produtos * 100
      let r1 := if carga_tributaria > 30 then recs0 ++ [rec30Msg] else recs0
      if carga_tributaria > 40 then r1 ++ [rec40Msg] else r1
    else recs0
  let desconto := (alookup totais "desconto").getD 0
  let recs2 := if desconto > total_produtos * (15 / 100) then recs1 ++ [recDescontoMsg] else recs1
  let recs3 := if numItens > 50 then recs2 ++ [recItensMsg] else recs2
  if recs3.isEmpty then [recOkMsg] else recs3

/-- C8: the analyzer's threshold insights are strict and independent — each
of the four messages is present exactly when its own strict threshold
condition holds (tax burden over 30%, over 40%, discount over 15% of the
products total, more than 50 items), and the fallback no-issues message is
present exactly when no threshold triggers; hence a tax-to-products ratio
of exactly 30% does not trigger the 30% message, 30.01% does, and 40.01%
triggers both. -/
theorem analyzer_thresholds (totais impostos : List (String × Rat)) (numItens : Nat) :
    (rec30Msg ∈ generateRecommendations totais impostos numItens ↔
      0 < (alookup totais "produtos").getD 0 ∧
      ((alookup impostos "icms").getD 0 + (alookup impostos "ipi").getD 0 +
        (alookup impostos "pis").getD 0 + (alookup impostos "cofins").getD 0) /
        (alookup totais "produtos").getD 0 * 100 > 30) ∧
    (rec40Msg ∈ generateRecommendations totais impostos numItens ↔
      0 < (alookup totais "produtos").getD 0 ∧
      ((alookup impostos "icms").getD 0 + (alookup impostos "ipi").getD 0 +
        (alookup impostos "pis").getD 0 + (alookup impostos "cofins").getD 0) /
        (alookup totais "produtos").getD 0 * 100 > 40) ∧
    (recDescontoMsg ∈ generateRecommendations totais impostos numItens ↔
      (alookup totais "desconto").getD 0 >
        (alookup totais "produtos").getD 0 * (15 / 100)) ∧
    (recItensMsg ∈ generateRecommendations totais impostos numItens ↔ numItens > 50) ∧
    (recOkMsg ∈ generateRecommendations totais impostos numItens ↔
      ¬(0 < (alookup totais "produtos").getD 0 ∧
        ((alookup impostos "icms").getD 0 + (alookup impostos "ipi").getD 0 +
          (alookup impostos "pis").getD 0 + (alookup impostos "cofins").getD 0) /
          (alookup totais "produtos").getD 0 * 100 > 30) ∧
      ¬(0 < (alookup totais "produtos").getD 0 ∧
        ((alookup impostos "icms").getD 0 + (alookup impostos "ipi").getD 0 +
          (alookup impostos "pis").getD 0 + (alookup impostos "cofins").getD 0) /
          (alookup totais "produtos").getD 0 * 100 > 40) ∧
      ¬((alookup totais "desconto").getD 0 >
        (alookup totais "produtos").getD 0 * (15 / 100)) ∧
      ¬(numItens > 50)) := by
  unfold generateRecommendations
  set produtos := (alookup totais "produtos").getD 0 with hp
  set taxsum := (alookup impostos "icms").getD 0 + (alookup impostos "ipi").getD 0 +
    (alookup impostos "pis").getD 0 + (alookup impostos "cofins").getD 0 with ht
  set desconto := (alookup totais "desconto").getD 0 with hd
  by_cases h0 : produtos > 0 <;>
    by_cases h30 : taxsum / produtos * 100 > 30 <;>
    by_cases h40 : taxsum / produtos * 100 > 40 <;>
    by_cases hde : desconto > produtos * (15 / 100) <;>
    by_cases hit : numItens > 50 <;>
    simp [h0, h30, h40, hde, hit, rec30Msg, rec40Msg, recDescontoMsg, recItensMsg, recOkMsg]

/-- Witness for C8: ratio exactly 30% gives no threshold message (the
fallback appears instead), 30.01% triggers the 30% message, 40.01% triggers
both messages. -/
theorem analyzer_thresholds_witness :
    rec30Msg ∉ generateRecommendations [("produtos", 100)] [("icms", 30)] 0 ∧
    rec30Msg ∈ generateRecommendations [("produtos", 100)] [("icms", 3001 / 100)] 0 ∧
    (rec30Msg ∈ generateRecommendations [("produtos", 100)] [("icms", 4001 / 100)] 0 ∧
     rec40Msg ∈ generateRecommendations [("produtos", 100)] [("icms", 4001 / 100)] 0) ∧
    recOkMsg ∈ generateRecommendations [("produtos", 100)] [("icms", 30)] 0 := by
  refine ⟨?_, ?_, ⟨?_, ?_⟩, ?_⟩
  · intro h
    have hmem := (analyzer_thresholds [("produtos", 100)] [("icms", 30)] 0).1.mp h
    revert hmem
    simp [alookup]
    try norm_num
  · refine (analyzer_thresholds [("produtos", 100)] [("icms", 3001 / 100)] 0).1.mpr ?_
    simp [alookup]
    try norm_num
  · refine (analyzer_thresholds [("produtos", 100)] [("icms", 4001 / 100)] 0).1.mpr ?_
    simp [alookup]
    try norm_num
  · refine (analyzer_thresholds [("produtos", 100)] [("icms", 4001 / 100)] 0).2.1.mpr ?_
    simp [alookup]
    try norm_num
  · refine (analyzer_thresholds [("produtos", 100)] [("icms", 30)] 0).2.2.2.2.mpr ?_
    simp [alookup]
    try norm_num

/-! ## src/utils/tax_config_loader.py — mutating registry operations.  The
persisted file and its timestamped sibling backups are modelled as explicit
state; `now` injects `datetime.now()` (the source stores a second-resolution
stamp in history entries and a date in `last_updated`; both are modelled as
the given stamp).  `_save_config` + `reload` keep the in-memory and the
persisted configuration identical, so one `ConfigFile` models both. -/

/-- Embeds `_add_change_to_history`: append one entry
`{date, change, author='user'}` and refresh `last_updated`. -/
def ConfigFile.addHistory (cfg : ConfigFile) (now desc : String) : ConfigFile :=
  {cfg with change_history := cfg.change_history ++ [⟨now, desc, "user"⟩],
            last_updated := now}

/-- The registry state: the configuration file plus the backup files
created by `_create_backup` (in creation order). -/
structure TaxConfigState where
  file : ConfigFile
  backups : List ConfigFile
deriving DecidableEq

/-- Embeds `_create_backup`: copy the current configuration file to a new
backup. -/
def TaxConfigState.create_backup (s : TaxConfigState) : TaxConfigState :=
  {s with backups := s.backups ++ [s.file]}

/-- Embeds `add_tax`: refuse when the id already exists, else backup,
append, record history. -/
def TaxConfigState.add_tax (s : TaxConfigState) (now : String) (tax_data : TaxDef) :
    Bool × TaxConfigState :=
  if (s.file.get_tax_by_id tax_data.id).isSome then (false, s)
  else
    let s1 := s.create_backup
    let cfg1 := {s1.file with taxes := s1.file.taxes ++ [tax_data]}
    let cfg2 := cfg1.addHistory now ("Imposto '" ++ tax_data.name ++ "' adicionado")
    (true, {s1 with file := cfg2})

/-- The indexed loop of `update_tax`: replace the first tax whose id
matches, or report no match. -/
def updateLoop (tax_id : String) (updated : TaxDef) : List TaxDef → Option (List TaxDef)
  | [] => none
  | t :: rest =>
    if t.id == tax_id then some (updated :: rest)
    else (updateLoop tax_id updated rest).map (fun r => t :: r)

/-- Embeds `update_tax`: replace the first matching tax (backup + history
on success), `false` when the id is absent. -/
def TaxConfigState.update_tax (s : TaxConfigState) (now tax_id : String)
    (updated_data : TaxDef) : Bool × TaxConfigState :=
  match updateLoop tax_id updated_data s.file.taxes with
  | some taxes2 =>
    let s1 := s.create_backup
    let cfg2 := ({s1.file with taxes := taxes2}).addHistory now
      ("Imposto '" ++ updated_data.name ++ "' atualizado")
    (true, {s1 with file := cfg2})
  | none => (false, s)

/-- Embeds `delete_tax`: drop every tax with the given id (backup + history
naming the first match), `false` when absent. -/
def TaxConfigState.delete_tax (s : TaxConfigState) (now tax_id : String) :
    Bool × TaxConfigState :=
  match s.file.get_tax_by_id tax_id with
  | some tax =>
    let s1 := s.create_backup
    let cfg2 := ({s1.file with
      taxes := s1.file.taxes.filter (fun t => !(t.id == tax_id))}).addHistory now
      ("Imposto '" ++ tax.name ++ "' removido")
    (true, {s1 with file := cfg2})
  | none => (false, s)

/-- The loop of `toggle_tax_status`: flip the defaulted enabled flag of the
first matching tax, returning the new status, the mutated list and the
history description. -/
def toggleLoop (tax_id : String) : List TaxDef → Option (Bool × List TaxDef × String)
  | [] => none
  | t :: rest =>
    if t.id == tax_id then
      let new_status := !(t.enabled.getD true)
      let status_str := if new_status then "ativado" else "desativado"
      some (new_status, {t with enabled := some new_status} :: rest,
        "Imposto '" ++ t.name ++ "' " ++ status_str)
    else (toggleLoop tax_id rest).map (fun r => (r.1, t :: r.2.1, r.2.2))

/-- Embeds `toggle_tax_status`: flip the first matching tax (backup +
history on success), `none` when the id is absent. -/
def TaxConfigState.toggle_tax_status (s : TaxConfigState) (now tax_id : String) :
    Option Bool × TaxConfigState :=
  match toggleLoop tax_id s.file.taxes with
  | some (new_status, taxes2, desc) =>
    let s1 := s.create_backup
    let cfg2 := ({s1.file with taxes := taxes2}).addHistory now desc
    (some new_status, {s1 with file := cfg2})
  | none => (none, s)

lemma find?_decomp {α : Type} (l : List α) (p : α → Bool) (t : α)
    (h : l.find? p = some t) :
    ∃ pre post, l = pre ++ t :: post ∧ (∀ x ∈ pre, p x = false) ∧ p t = true := by
  induction l with
  | nil => simp at h
  | cons a rest ih =>
    by_cases hpa : p a = true
    · rw [List.find?_cons_of_pos _ hpa] at h
      injection h with h2
      subst h2
      exact ⟨[], rest, rfl, by simp, hpa⟩
    · rw [List.find?_cons_of_neg _ hpa] at h
      obtain ⟨pre, post, he, hp, hpt⟩ := ih h
      exact ⟨a :: pre, post, by rw [he]; rfl,
        by
          intro x hx
          rcases List.mem_cons.mp hx with h1 | h1
          · subst h1; simpa using hpa
          · exact hp x h1,
        hpt⟩

lemma updateLoop_append (tax_id : String) (u : TaxDef) (pre : List TaxDef)
    (hpre : ∀ x ∈ pre, (x.id == tax_id) = false) (t : TaxDef)
    (ht : (t.id == tax_id) = true) (post : List TaxDef) :
    updateLoop tax_id u (pre ++ t :: post) = some (pre ++ u :: post) := by
  induction pre with
  | nil => simp [updateLoop, ht]
  | cons a rest ih =>
    have ha := hpre a (by simp)
    simp only [List.cons_append, updateLoop, ha, Bool.false_eq_true, if_false,
      List.append_eq]
    rw [ih (fun x hx => hpre x (by simp [hx]))]
    rfl

lemma updateLoop_none (tax_id : String) (u : TaxDef) (l : List TaxDef)
    (h : l.find? (fun t => t.id == tax_id) = none) :
    updateLoop tax_id u l = none := by
  induction l with
  | nil => rfl
  | cons a rest ih =>
    rw [List.find?_eq_none] at h
    have ha : (a.id == tax_id) = false := by
      have := h a (by simp)
      simpa using this
    simp only [updateLoop, ha, Bool.false_eq_true, if_false]
    rw [ih (List.find?_eq_none.mpr (fun x hx => h x (by simp [hx])))]
    rfl

lemma toggleLoop_append (tax_id : String) (pre : List TaxDef)
    (hpre : ∀ x ∈ pre, (x.id == tax_id) = false) (t : TaxDef)
    (ht : (t.id == tax_id) = true) (post : List TaxDef) :
    toggleLoop tax_id (pre ++ t :: post) =
      some (!(t.enabled.getD true),
        pre ++ {t with enabled := some (!(t.enabled.getD true))} :: post,
        "Imposto '" ++ t.name ++ "' " ++
          (if !(t.enabled.getD true) then "ativado" else "desativado")) := by
  induction pre with
  | nil => simp [toggleLoop, ht]
  | cons a rest ih =>
    have ha := hpre a (by simp)
    simp only [List.cons_append, toggleLoop, ha, Bool.false_eq_true, if_false,
      List.append_eq]
    rw [ih (fun x hx => hpre x (by simp [hx]))]
    rfl

lemma toggleLoop_none (tax_id : String) (l : List TaxDef)
    (h : l.find? (fun t => t.id == tax_id) = none) :
    toggleLoop tax_id l = none := by
  induction l with
  | nil => rfl
  | cons a rest ih =>
    rw [List.find?_eq_none] at h
    have ha : (a.id == tax_id) = false := by
      have := h a (by simp)
      simpa using this
    simp only [toggleLoop, ha, Bool.false_eq_true, if_false]
    rw [ih (List.find?_eq_none.mpr (fun x hx => h x (by simp [hx])))]
    rfl

lemma find?_prefix_skip (pre : List TaxDef) (tax_id : String)
    (hpre : ∀ x ∈ pre, (x.id == tax_id) = false) (rest : List TaxDef) :
    (pre ++ rest).find? (fun t => t.id == tax_id) =
      rest.find? (fun t => t.id == tax_id) := by
  induction pre with
  | nil => rfl
  | cons a p ih =>
    have ha := hpre a (by simp)
    simp only [List.cons_append]
    rw [List.find?_cons_of_neg _ (by simp [ha])]
    exact ih (fun x hx => hpre x (by simp [hx]))

lemma find?_filter_not_self (l : List TaxDef) (tax_id : String) :
    (l.filter (fun t => !(t.id == tax_id))).find? (fun t => t.id == tax_id) = none := by
  rw [List.find?_eq_none]
  intro x hx
  have hm := List.mem_filter.mp hx
  simpa using hm.2

/-- C7: every successful registry mutation (add, update, delete, toggle) is
reflected by a fresh read, appends exactly one backup holding the prior
configuration, and grows the change history by exactly one entry; `add`
returns false on a duplicate id leaving the state untouched; `update` and
`delete` return false on an absent id leaving the state untouched; `toggle`
returns the new enabled state, or none (untouched state) when absent. -/
theorem registry_mutation_contract :
    (∀ s : TaxConfigState, ∀ now : String, ∀ td : TaxDef,
      s.file.get_tax_by_id td.id = none →
      (s.add_tax now td).1 = true ∧
      (s.add_tax now td).2.file.get_tax_by_id td.id = some td ∧
      (s.add_tax now td).2.backups = s.backups ++ [s.file] ∧
      (s.add_tax now td).2.file.change_history = s.file.change_history ++
        [⟨now, "Imposto '" ++ td.name ++ "' adicionado", "user"⟩]) ∧
    (∀ s : TaxConfigState, ∀ now : String, ∀ td : TaxDef,
      (s.file.get_tax_by_id td.id).isSome = true →
      s.add_tax now td = (false, s)) ∧
    (∀ s : TaxConfigState, ∀ now tax_id : String, ∀ upd t : TaxDef,
      s.file.get_tax_by_id tax_id = some t →
      (s.update_tax now tax_id upd).1 = true ∧
      (∃ pre post, s.file.taxes = pre ++ t :: post ∧
        (∀ x ∈ pre, (x.id == tax_id) = false) ∧
        (s.update_tax now tax_id upd).2.file.taxes = pre ++ upd :: post) ∧
      (upd.id = tax_id →
        (s.update_tax now tax_id upd).2.file.get_tax_by_id tax_id = some upd) ∧
      (s.update_tax now tax_id upd).2.backups = s.backups ++ [s.file] ∧
      (s.update_tax now tax_id upd).2.file.change_history = s.file.change_history ++
        [⟨now, "Imposto '" ++ upd.name ++ "' atualizado", "user"⟩]) ∧
    (∀ s : TaxConfigState, ∀ now tax_id : String, ∀ upd : TaxDef,
      s.file.get_tax_by_id tax_id = none →
      s.update_tax now tax_id upd = (false, s)) ∧
    (∀ s : TaxConfigState, ∀ now tax_id : String, ∀ t : TaxDef,
      s.file.get_tax_by_id tax_id = some t →
      (s.delete_tax now tax_id).1 = true ∧
      (s.delete_tax now tax_id).2.file.get_tax_by_id tax_id = none ∧
      (s.delete_tax now tax_id).2.backups = s.backups ++ [s.file] ∧
      (s.delete_tax now tax_id).2.file.change_history = s.file.change_history ++
        [⟨now, "Imposto '" ++ t.name ++ "' removido", "user"⟩]) ∧
    (∀ s : TaxConfigState, ∀ now tax_id : String,
      s.file.get_tax_by_id tax_id = none →
      s.delete_tax now tax_id = (false, s)) ∧
    (∀ s : TaxConfigState, ∀ now tax_id : String, ∀ t : TaxDef,
      s.file.get_tax_by_id tax_id = some t →
      (s.toggle_tax_status now tax_id).1 = some (!(t.enabled.getD true)) ∧
      (s.toggle_tax_status now tax_id).2.file.get_tax_by_id tax_id =
        some {t with enabled := some (!(t.enabled.getD true))} ∧
      (s.toggle_tax_status now tax_id).2.backups = s.backups ++ [s.file] ∧
      (s.toggle_tax_status now tax_id).2.file.change_history = s.file.change_history ++
        [⟨now, "Imposto '" ++ t.name ++ "' " ++
          (if !(t.enabled.getD true) then "ativado" else "desativado"), "user"⟩]) ∧
    (∀ s : TaxConfigState, ∀ now tax_id : String,
      s.file.get_tax_by_id tax_id = none →
      s.toggle_tax_status now tax_id = (none, s)) := by
  refine ⟨?_, ?_, ?_, ?_, ?_, ?_, ?_, ?_⟩
  · intro s now td h
    have hnone : (s.file.get_tax_by_id td.id).isSome = false := by rw [h]; rfl
    unfold TaxConfigState.add_tax
    rw [hnone, if_neg (by simp : ¬(false = true))]
    refine ⟨rfl, ?_, rfl, rfl⟩
    show (s.file.taxes ++ [td]).find? (fun t => t.id == td.id) = some td
    rw [List.find?_append]
    have h2 : s.file.taxes.find? (fun t => t.id == td.id) = none := h
    rw [h2]
    simp [List.find?_cons]
  · intro s now td h
    unfold TaxConfigState.add_tax
    rw [h]
    rfl
  · intro s now tax_id upd t h
    have hfind : s.file.taxes.find? (fun x => x.id == tax_id) = some t := h
    obtain ⟨pre, post, he, hpre, hpt⟩ := find?_decomp _ _ _ hfind
    have hloop := updateLoop_append tax_id upd pre hpre t hpt post
    unfold TaxConfigState.update_tax
    rw [he, hloop]
    refine ⟨rfl, ⟨pre, post, rfl, hpre, rfl⟩, ?_, rfl, rfl⟩
    intro hid
    show (pre ++ upd :: post).find? (fun x => x.id == tax_id) = some upd
    rw [find?_prefix_skip pre tax_id hpre]
    rw [List.find?_cons_of_pos]
    simp [hid]
  · intro s now tax_id upd h
    unfold TaxConfigState.update_tax
    rw [updateLoop_none tax_id upd s.file.taxes h]
  · intro s now tax_id t h
    unfold TaxConfigState.delete_tax
    rw [h]
    refine ⟨rfl, ?_, rfl, rfl⟩
    exact find?_filter_not_self s.file.taxes tax_id
  · intro s now tax_id h
    unfold TaxConfigState.delete_tax
    rw [h]
  · intro s now tax_id t h
    have hfind : s.file.taxes.find? (fun x => x.id == tax_id) = some t := h
    obtain ⟨pre, post, he, hpre, hpt⟩ := find?_decomp _ _ _ hfind
    have hloop := toggleLoop_append tax_id pre hpre t hpt post
    unfold TaxConfigState.toggle_tax_status
    rw [he, hloop]
    refine ⟨rfl, ?_, rfl, rfl⟩
    show (pre ++ {t with enabled := some (!(t.enabled.getD true))} :: post).find?
      (fun x => x.id == tax_id) = some {t with enabled := some (!(t.enabled.getD true))}
    rw [find?_prefix_skip pre tax_id hpre]
    rw [List.find?_cons_of_pos]
    exact hpt
  · intro s now tax_id h
    unfold TaxConfigState.toggle_tax_status
    rw [toggleLoop_none tax_id s.file.taxes h]

/-- Fixtures for the C7 witness. -/
def regTA : TaxDef := ⟨"icms", "ICMS", "", "", [], "", [], some true⟩

def regTB : TaxDef := ⟨"iva", "IVA", "", "", [], "", [], some true⟩

def regS0 : TaxConfigState := ⟨⟨[regTA], [], "2024-01-01"⟩, []⟩

/-- Witness for C7 on a one-tax registry: adding a new tax succeeds and is
readable, re-adding an existing id fails unchanged, toggling flips
enabled to false, toggling an absent id returns none, deleting removes the
tax from reads, and updating grows the history by one. -/
theorem registry_mutation_contract_witness :
    (regS0.add_tax "2024-01-02 00:00:00" regTB).1 = true ∧
    (regS0.add_tax "2024-01-02 00:00:00" regTB).2.file.get_tax_by_id "iva" = some regTB ∧
    (regS0.add_tax "2024-01-02 00:00:00" regTB).2.backups = [regS0.file] ∧
    regS0.add_tax "2024-01-02 00:00:00" regTA = (false, regS0) ∧
    (regS0.toggle_tax_status "2024-01-02 00:00:00" "icms").1 = some false ∧
    regS0.toggle_tax_status "2024-01-02 00:00:00" "iva" = (none, regS0) ∧
    (regS0.delete_tax "2024-01-02 00:00:00" "icms").2.file.get_tax_by_id "icms" = none ∧
    (regS0.update_tax "2024-01-02 00:00:00" "icms" regTB).2.file.change_history.length =
      regS0.file.change_history.length + 1 := by
  have h1 := registry_mutation_contract.1 regS0 "2024-01-02 00:00:00" regTB rfl
  have h2 := registry_mutation_contract.2.1 regS0 "2024-01-02 00:00:00" regTA rfl
  have h3 := registry_mutation_contract.2.2.1 regS0 "2024-01-02 00:00:00" "icms" regTB
    regTA rfl
  have h5 := registry_mutation_contract.2.2.2.2.1 regS0 "2024-01-02 00:00:00" "icms"
    regTA rfl
  have h7 := registry_mutation_contract.2.2.2.2.2.2.1 regS0 "2024-01-02 00:00:00" "icms"
    regTA rfl
  have h8 := registry_mutation_contract.2.2.2.2.2.2.2 regS0 "2024-01-02 00:00:00" "iva" rfl
  refine ⟨h1.1, h1.2.1, h1.2.2.1, h2, h7.1, h8, h5.2.1, ?_⟩
  rw [h3.2.2.2.2]
  simp

end NexaFiscal
